import Mathlib

/-!
Shallow embedding of the IdecapLMS backend pieces under verification:
the AI-Studio prompt configuration store (master prompt versioning and
rollback), the unified prompt service (module extensions, variable
substitution, prompt assembly), quiz generation error handling, the
avatar-video status poll loop, and access-code validation.

Python strings are modelled as `List Char`; Python dicts whose iteration
order matters are modelled as association lists in insertion order.
-/

set_option maxRecDepth 4000

/-- Strings of the embedded program, modelled as lists of characters. -/
abbrev Str := List Char

/-- The left brace character, written via its code point. -/
def lbrace : Char := Char.ofNat 123

/-- The right brace character, written via its code point. -/
def rbrace : Char := Char.ofNat 125

/-- Python values as they flow through the prompt variable mappings:
`None`, strings, integers and booleans. -/
inductive PyVal where
  | vnone : PyVal
  | vstr : Str → PyVal
  | vint : Int → PyVal
  | vbool : Bool → PyVal
deriving DecidableEq, Repr

/-- Python truthiness: `None`, `""`, `0` and `False` are falsy. -/
def PyVal.truthy : PyVal → Bool
  | .vnone => false
  | .vstr s => !s.isEmpty
  | .vint n => n != 0
  | .vbool b => b

/-- Python `str(value)`. -/
def PyVal.toStr : PyVal → Str
  | .vnone => ("None").toList
  | .vstr s => s
  | .vint n => (toString n).toList
  | .vbool true => ("True").toList
  | .vbool false => ("False").toList

/-- Python `value if value else ""` coerced through `str`, as used by the
substitution engine: string form of the value, empty when falsy. -/
def PyVal.toStrOrEmpty (v : PyVal) : Str :=
  if v.truthy then v.toStr else []

/-- Python `x or default` on an optional string: the default is taken both
when the field is `None` and when it is the empty string. -/
def pyOr (o : Option Str) (d : Str) : Str :=
  match o with
  | Option.none => d
  | some s => if s.isEmpty then d else s

/-- Python dict insertion `d[k] = v` on an insertion-ordered association
list: an existing key keeps its position but gets the new value, a new key
is appended at the end. -/
def dictInsert (l : List (Str × PyVal)) (k : Str) (v : PyVal) : List (Str × PyVal) :=
  if l.any (fun kv => kv.1 = k) then
    l.map (fun kv => if kv.1 = k then (kv.1, v) else kv)
  else
    l ++ [(k, v)]

/-- Whitespace characters removed by Python `str.strip()`. -/
def pyIsSpace (c : Char) : Bool :=
  c = ' ' || c = '\t' || c = '\n' || c = '\x0d' || c = '\x0b' || c = '\x0c'

/-- Python `str.strip()`: drop whitespace from both ends. -/
def pyStrip (s : Str) : Str :=
  ((s.dropWhile pyIsSpace).reverse.dropWhile pyIsSpace).reverse

/-- Decidable prefix test on character lists. -/
def isPre : Str → Str → Bool
  | [], _ => true
  | _ :: _, [] => false
  | a :: xs, b :: ys => a = b && isPre xs ys

/-- One scan of Python `str.replace` for a non-empty pattern `old`:
leftmost non-overlapping occurrences of `old` are replaced by `new`.
The `Nat` argument is fuel, one unit per character of the scanned text;
it is initialised to the text's length by `replGo`. -/
def replGoAux (old new : Str) : Nat → Str → Str
  | _, [] => []
  | 0, s => s
  | f + 1, c :: rest =>
      if isPre old (c :: rest) then
        new ++ replGoAux old new f (rest.drop (old.length - 1))
      else
        c :: replGoAux old new f rest

/-- Scan of Python `str.replace` for a non-empty pattern. -/
def replGo (old new s : Str) : Str :=
  replGoAux old new s.length s

/-- Python `str.replace(old, new)` for an empty `old`: `new` is inserted
before every character and once at the end. -/
def replEmpty (new : Str) : Str → Str
  | [] => new
  | c :: rest => new ++ c :: replEmpty new rest

/-- Python `s.replace(old, new)`. -/
def pyReplace (s old new : Str) : Str :=
  if old.isEmpty then replEmpty new s else replGo old new s

/-- The literal placeholder pattern `\x7b\x7bkey\x7d\x7d` built by the
substitution engine. -/
def phPat (key : Str) : Str :=
  lbrace :: lbrace :: key ++ [rbrace, rbrace]

/-- `UnifiedPromptService._replace_variables`: fold over the variable
mapping in insertion order, replacing each `\x7b\x7bkey\x7d\x7d` with the
string form of the value (empty when the value is falsy). -/
def replaceVariables (template : Str) (vars : List (Str × PyVal)) : Str :=
  vars.foldl
    (fun result kv => pyReplace result (phPat kv.1) kv.2.toStrOrEmpty)
    template

/-- `DEFAULT_MASTER_PROMPT` from `app/models/domain/ai/prompt_config.py`. -/
def DEFAULT_MASTER_PROMPT : Str :=
  ("# IDECAP AI STUDIO – PROMPT MAESTRO\n\nEres un **diseñador instruccional experto en enseñanza de portugués brasileño para hispanohablantes peruanos**, con enfoque comunicativo, práctico y cultural.\n\nTu misión es crear **material educativo claro, dinámico y culturalmente conectado** entre Perú y Brasil, usando inteligencia artificial.\n\n## PERFIL DEL ESTUDIANTE\n- Idioma base: Español (Perú)\n- Idioma objetivo: Portugués brasileño\n- Nivel: \x7b\x7bnivel\x7d\x7d\n- Objetivo: \x7b\x7bobjetivo\x7d\x7d\n\n## PRINCIPIOS DIDÁCTICOS\n1. **Transferencia positiva**: Aprovecha los cognados reales entre español y portugués\n2. **Alertar falsos amigos**: Señala claramente las palabras que parecen similares pero tienen significados diferentes\n3. **Contraste fonético claro**: Explica las diferencias de pronunciación importantes\n4. **Uso en contexto real**: Todo vocabulario y gramática debe presentarse en situaciones prácticas\n5. **Micro-aprendizaje práctico**: Contenido en dosis manejables y aplicables\n\n## ENFOQUE CULTURAL\nIntegra referencias reales Perú–Brasil:\n- Turismo y viajes\n- Comercio y negocios\n- Música y entretenimiento\n- Gastronomía\n- Fútbol y deportes\n- Expresiones cotidianas\n\n## TONO\n- Cercano y amigable\n- Motivador y positivo\n- Claro y directo\n- Sin tecnicismos innecesarios\n- Portugués brasileño estándar (no regional)\n\n## REGLA DE ORO\nTodo contenido debe cumplir 4 objetivos:\n✔ **Enseñar**: Transmitir conocimiento claro\n✔ **Practicar**: Ofrecer ejercicios aplicables\n✔ **Conectar**: Relacionar con la vida real del estudiante\n✔ **Motivar**: Generar confianza y ganas de seguir aprendiendo").toList

/-- `DEFAULT_STRUCTURE_TEMPLATE` from `app/models/domain/ai/prompt_config.py`. -/
def DEFAULT_STRUCTURE_TEMPLATE : Str :=
  ("# ESTRUCTURA BASE DE CONTENIDO\n\n## Información del Contenido\n- **Tema**: \x7b\x7btema\x7d\x7d\n- **Unidad**: \x7b\x7bunidad\x7d\x7d\n- **Duración estimada**: \x7b\x7bduracion\x7d\x7d\n- **Nivel**: \x7b\x7bnivel\x7d\x7d\n\n## Secciones Requeridas\n\n### 1. Objetivos de Aprendizaje\n- Objetivo principal\n- 2-3 objetivos secundarios medibles\n\n### 2. Vocabulario Clave\n- Mínimo 8 palabras/frases\n- Máximo 12 palabras/frases\n- Incluir pronunciación aproximada\n- Incluir ejemplo de uso\n\n### 3. Gramática Contrastiva\n- Comparación Portugués vs Español\n- Regla principal\n- Excepciones comunes\n- Ejemplos claros\n\n### 4. Diálogo Situacional\n- Contexto realista\n- 6-10 turnos de conversación\n- Vocabulario en contexto\n\n### 5. Práctica Guiada\n- 3-5 ejercicios variados\n- Respuestas incluidas\n\n### 6. Conexión Cultural Brasil\n- Dato cultural relevante\n- Cómo se relaciona con el tema\n\n### 7. Puente Perú-Brasil\n- Conexión práctica entre ambas culturas\n- Situación donde el estudiante aplicaría esto").toList

/-- One entry of `DEFAULT_MODULE_EXTENSIONS`: name, description, content template and default parameters. -/
structure ExtensionDefault where
  name : Str
  description : Str
  content : Str
  parameters : List (Str × PyVal)
deriving DecidableEq, Repr

/-- `DEFAULT_MODULE_EXTENSIONS` from `app/models/domain/ai/prompt_config.py`:
an insertion-ordered mapping with seven keys (there is no entry for the
`lesson` member of the `AIModule` enumeration). -/
def DEFAULT_MODULE_EXTENSIONS : List (Str × ExtensionDefault) := [
  (("audio").toList,
   ⟨("Extensión Audio TTS").toList,
    ("Instrucciones específicas para generar contenido de audio con Text-to-Speech").toList,
    ("[MODO: AUDIO TTS]\n\n## Formato de Salida\nGenera un script de audio educativo con las siguientes características:\n\n### Estructura\n1. **Introducción** (30 seg): Saludo y presentación del tema\n2. **Contenido principal** (según duración): Explicación clara\n3. **Práctica oral** (1-2 min): Repetición guiada\n4. **Cierre** (30 seg): Resumen y motivación\n\n### Reglas de Formato\n- Usa [PAUSA] para indicar pausas de 1 segundo\n- Usa [PAUSA_LARGA] para pausas de 2 segundos\n- Repite cada palabra nueva DOS veces\n- Máximo 15 palabras por oración\n- Incluye indicaciones de entonación: (↗ subir) (↘ bajar)\n\n### Estilo\n- Voz de profesor amigable\n- Incluye \"estudiante virtual\" que responde\n- Termina con un reto oral para el estudiante\n\n### Ejemplo de formato:\n\"Olá! [PAUSA] Bem-vindos à nossa aula de hoje. [PAUSA_LARGA]\nVamos aprender a decir... obrigado. [PAUSA] Obrigado. [PAUSA]\nRepitan conmigo: obrigado (↗) [PAUSA_LARGA]\"\n").toList,
    [(("duracion_minutos").toList, PyVal.vint 5), (("incluir_musica").toList, PyVal.vbool false), (("velocidad").toList, PyVal.vstr ("normal").toList)]⟩),
  (("presentation").toList,
   ⟨("Extensión Presentaciones").toList,
    ("Instrucciones para generar slides educativos").toList,
    ("[MODO: PRESENTACIÓN / SLIDES]\n\n## Formato de Salida\nGenera una presentación educativa estructurada.\n\n### Estructura de Slides\n1. **Slide de título**: Tema + imagen sugerida\n2. **Slide de objetivos**: 3-4 bullets\n3. **Slides de contenido**: 8-12 slides\n4. **Slide de resumen**: Puntos clave\n5. **Slide de práctica**: Ejercicio interactivo\n6. **Slide de cierre**: Motivación + siguiente paso\n\n### Reglas por Slide\n- Máximo 6 líneas de texto\n- Máximo 8 palabras por línea\n- Sugiere imagen/icono por slide\n- Incluye notas del presentador (2-3 oraciones)\n- Usa colores: azul (información), verde (ejemplos), naranja (alertas)\n\n### Formato JSON esperado:\n\x7b\n  \"titulo\": \"...\",\n  \"slides\": [\n    \x7b\n      \"numero\": 1,\n      \"tipo\": \"titulo|contenido|ejercicio|resumen\",\n      \"titulo_slide\": \"...\",\n      \"contenido\": [\"bullet1\", \"bullet2\"],\n      \"imagen_sugerida\": \"descripción de imagen\",\n      \"notas_presentador\": \"...\"\n    \x7d\n  ]\n\x7d\n").toList,
    [(("num_slides").toList, PyVal.vint 12), (("incluir_ejercicios").toList, PyVal.vbool true), (("estilo_visual").toList, PyVal.vstr ("moderno").toList)]⟩),
  (("mindmap").toList,
   ⟨("Extensión Mapas Mentales").toList,
    ("Instrucciones para generar mapas mentales educativos").toList,
    ("[MODO: MAPA MENTAL]\n\n## Formato de Salida\nGenera un mapa mental jerárquico para visualizar el tema.\n\n### Estructura\n- **Nodo central**: Tema principal (máx 4 palabras)\n- **Ramas principales**: 4-6 categorías\n- **Sub-ramas**: 2-4 items por rama\n- **Hojas**: Ejemplos concretos\n\n### Codificación de Colores\n- 🟢 Verde: Fácil / Cognados\n- 🟡 Amarillo: Intermedio / Atención\n- 🔴 Rojo: Difícil / Falsos amigos\n- 🔵 Azul: Información cultural\n\n### Formato JSON esperado:\n\x7b\n  \"centro\": \"Tema\",\n  \"ramas\": [\n    \x7b\n      \"nombre\": \"Categoría\",\n      \"color\": \"verde|amarillo|rojo|azul\",\n      \"subramas\": [\n        \x7b\n          \"nombre\": \"Subtema\",\n          \"ejemplos\": [\"ej1\", \"ej2\"]\n        \x7d\n      ]\n    \x7d\n  ]\n\x7d\n\n### Reglas\n- Máximo 3 niveles de profundidad\n- Incluir al menos 1 falso amigo señalado\n- Incluir pronunciación en nodos de vocabulario\n").toList,
    [(("profundidad").toList, PyVal.vint 3), (("incluir_colores").toList, PyVal.vbool true), (("max_ramas").toList, PyVal.vint 6)]⟩),
  (("podcast").toList,
   ⟨("Extensión Podcast").toList,
    ("Instrucciones para generar guiones de podcast educativo").toList,
    ("[MODO: PODCAST EDUCATIVO]\n\n## Formato de Salida\nGenera un guión de podcast conversacional con múltiples voces.\n\n### Estructura del Episodio\n1. **Intro musical** (indicar)\n2. **Saludo y presentación** (30 seg)\n3. **Tema del día** (indicar duración)\n4. **Sección especial**: \"Cuidado con los Falsos Amigos\" (2 min)\n5. **Práctica con el oyente** (1 min)\n6. **Dato cultural Brasil** (1 min)\n7. **Despedida y preview** (30 seg)\n\n### Voces/Personajes\n- **Presentador/a principal**: Voz amigable, guía la conversación\n- **Co-presentador/a**: Hace preguntas, representa al estudiante\n- **Voz nativa (opcional)**: Para pronunciación correcta\n\n### Formato del Guión:\n[INTRO_MUSICAL]\n\nPRESENTADOR: \"¡Olá, pessoal! Bienvenidos a Aprende Portugués...\"\n\nCO-PRESENTADOR: \"Hola! Hoy vamos a hablar de...\"\n\n[TRANSICIÓN]\n\n### Reglas\n- Diálogo natural, no monólogos largos\n- Máximo 4 oraciones por turno\n- Incluir risas/reacciones: [RÍE], [SORPRENDIDO]\n- Palabras en portugués: marcar con *asteriscos*\n- Indicar énfasis con MAYÚSCULAS\n").toList,
    [(("duracion_minutos").toList, PyVal.vint 10), (("num_presentadores").toList, PyVal.vint 2), (("incluir_musica").toList, PyVal.vbool true), (("estilo").toList, PyVal.vstr ("conversacional").toList)]⟩),
  (("video").toList,
   ⟨("Extensión Video").toList,
    ("Instrucciones para generar guiones de video educativo").toList,
    ("[MODO: VIDEO EDUCATIVO]\n\n## Formato de Salida\nGenera un guión de video con escenas, narración y elementos visuales.\n\n### Estructura del Video\n1. **Hook** (5-10 seg): Captar atención\n2. **Intro** (15 seg): Presentar tema\n3. **Contenido** (según duración): Escenas educativas\n4. **Resumen visual** (30 seg): Puntos clave\n5. **Call to action** (10 seg): Siguiente paso\n\n### Formato por Escena:\n\x7b\n  \"escenas\": [\n    \x7b\n      \"numero\": 1,\n      \"duracion_seg\": 30,\n      \"tipo\": \"hook|intro|contenido|resumen|cta\",\n      \"visual\": \"Descripción de lo que se ve en pantalla\",\n      \"narracion\": \"Texto que se escucha\",\n      \"texto_pantalla\": \"Texto overlay si aplica\",\n      \"b_roll\": \"Sugerencia de video de apoyo\",\n      \"subtitulos\": \x7b\n        \"pt\": \"Subtítulo en portugués\",\n        \"es\": \"Subtítulo en español\"\n      \x7d\n    \x7d\n  ]\n\x7d\n\n### Elementos Visuales Sugeridos\n- Texto animado para vocabulario\n- Comparaciones lado a lado (PT vs ES)\n- Imágenes culturales Brasil\n- Iconos y emojis relevantes\n\n### Reglas\n- Máximo 20 palabras por escena de narración\n- Siempre incluir subtítulos duales\n- B-roll cultural cada 2-3 escenas\n- Transiciones suaves indicadas\n").toList,
    [(("duracion_segundos").toList, PyVal.vint 120), (("formato").toList, PyVal.vstr ("vertical|horizontal").toList), (("incluir_subtitulos").toList, PyVal.vbool true), (("estilo").toList, PyVal.vstr ("dinamico").toList)]⟩),
  (("flashcard").toList,
   ⟨("Extensión Flashcards").toList,
    ("Instrucciones para generar tarjetas de memoria").toList,
    ("[MODO: FLASHCARDS]\n\n## Formato de Salida\nGenera un set de flashcards para memorización espaciada.\n\n### Estructura por Flashcard:\n\x7b\n  \"flashcards\": [\n    \x7b\n      \"id\": 1,\n      \"frente\": \x7b\n        \"palabra_pt\": \"Obrigado\",\n        \"pronunciacion\": \"oh-bree-GAH-doo\",\n        \"audio_hint\": true\n      \x7d,\n      \"reverso\": \x7b\n        \"traduccion_es\": \"Gracias\",\n        \"ejemplo_pt\": \"Muito obrigado pela ajuda!\",\n        \"ejemplo_es\": \"¡Muchas gracias por la ayuda!\",\n        \"nota\": \"Masculino dice 'obrigado', femenino dice 'obrigada'\"\n      \x7d,\n      \"dificultad\": \"facil|medio|dificil\",\n      \"categoria\": \"saludos|numeros|verbos|etc\",\n      \"es_falso_amigo\": false\n    \x7d\n  ]\n\x7d\n\n### Tipos de Flashcards\n1. **Vocabulario**: Palabra ↔ Traducción\n2. **Frases**: Frase completa ↔ Significado\n3. **Conjugación**: Verbo ↔ Conjugaciones\n4. **Falsos amigos**: Palabra ↔ Advertencia\n5. **Cultural**: Concepto ↔ Explicación\n\n### Reglas\n- Mínimo 15 flashcards por tema\n- Máximo 25 flashcards por tema\n- Incluir al menos 2 falsos amigos\n- Balancear dificultades: 40% fácil, 40% medio, 20% difícil\n- Ejemplos en contexto siempre\n").toList,
    [(("num_cards").toList, PyVal.vint 20), (("incluir_audio").toList, PyVal.vbool true), (("categorizar").toList, PyVal.vbool true)]⟩),
  (("quiz").toList,
   ⟨("Extensión Quiz").toList,
    ("Instrucciones para generar evaluaciones interactivas").toList,
    ("[MODO: QUIZ / EVALUACIÓN]\n\n## Formato de Salida\nGenera un quiz interactivo para evaluar comprensión.\n\n### Tipos de Preguntas\n1. **Opción múltiple**: 4 opciones, 1 correcta\n2. **Verdadero/Falso**: Con justificación\n3. **Completar**: Llenar espacios\n4. **Ordenar**: Organizar elementos\n5. **Emparejar**: Conectar columnas\n\n### Formato JSON:\n\x7b\n  \"quiz\": \x7b\n    \"titulo\": \"...\",\n    \"instrucciones\": \"...\",\n    \"tiempo_sugerido_min\": 10,\n    \"preguntas\": [\n      \x7b\n        \"id\": 1,\n        \"tipo\": \"multiple|vf|completar|ordenar|emparejar\",\n        \"pregunta\": \"...\",\n        \"opciones\": [\"a\", \"b\", \"c\", \"d\"],\n        \"respuesta_correcta\": \"a\",\n        \"explicacion\": \"Por qué esta es la respuesta correcta\",\n        \"pista\": \"Pista opcional\",\n        \"puntos\": 10,\n        \"dificultad\": \"facil|medio|dificil\"\n      \x7d\n    ],\n    \"puntaje_aprobatorio\": 70\n  \x7d\n\x7d\n\n### Distribución Recomendada\n- 40% Vocabulario\n- 30% Gramática\n- 20% Comprensión\n- 10% Cultura\n\n### Reglas\n- Mínimo 10 preguntas\n- Explicación obligatoria por pregunta\n- Distractores plausibles (no obvios)\n- Progresión de dificultad\n").toList,
    [(("num_preguntas").toList, PyVal.vint 15), (("tiempo_minutos").toList, PyVal.vint 15), (("mostrar_explicaciones").toList, PyVal.vbool true), (("aleatorizar").toList, PyVal.vbool true)]⟩)
]

/-! ## Master prompt versioning (`app/api/v1/endpoints/ai_studio/prompt_config.py`) -/

/-- One entry of a master prompt's `versions` history. -/
structure VersionEntry where
  version : Nat
  content : Str
  created_at : Nat
  created_by : Str
  notes : Str
deriving DecidableEq, Repr

/-- The `master_prompt` document of the `ai_studio_config` collection. -/
structure MasterPromptDoc where
  content : Str
  current_version : Nat
  versions : List VersionEntry
  is_active : Bool
  created_at : Nat
  updated_at : Nat
  updated_by : Option Str
deriving DecidableEq, Repr

/-- The default master-prompt document written by
`get_or_create_master_prompt` when the document is absent. -/
def mkDefaultMasterPromptDoc (now : Nat) : MasterPromptDoc :=
  { content := DEFAULT_MASTER_PROMPT
    current_version := 1
    versions := [{ version := 1
                   content := DEFAULT_MASTER_PROMPT
                   created_at := now
                   created_by := ("system").toList
                   notes := ("Versión inicial").toList }]
    is_active := true
    created_at := now
    updated_at := now
    updated_by := Option.none }

/-- The body of a `PUT /master-prompt` request. -/
structure MasterPromptUpdateReq where
  content : Str
  notes : Option Str
deriving DecidableEq, Repr

/-- `update_master_prompt`: appends a new version entry with version number
`current_version + 1`, truncates the history to its last 10 entries when it
exceeds 10, and overwrites the active content. -/
def updateMasterPrompt (doc : MasterPromptDoc) (req : MasterPromptUpdateReq)
    (userId : Str) (now : Nat) : MasterPromptDoc :=
  let newVersion := doc.current_version + 1
  let entry : VersionEntry :=
    { version := newVersion
      content := req.content
      created_at := now
      created_by := userId
      notes := pyOr req.notes (("Versión ").toList ++ (toString newVersion).toList) }
  let versions := doc.versions ++ [entry]
  let versions := if versions.length > 10 then versions.drop (versions.length - 10) else versions
  { doc with
      content := req.content
      current_version := newVersion
      versions := versions
      updated_at := now
      updated_by := some userId }

/-- An HTTP error raised via `HTTPException`. -/
structure HttpError where
  status_code : Nat
  detail : Str
deriving DecidableEq, Repr

/-- `rollback_master_prompt`: looks up the first history entry whose
version number equals `version`; if none exists it raises 404 and leaves
the document unchanged, otherwise it appends a new version entry copying
the target's content (without truncating the history) and overwrites the
active content.  Returns the post-state document together with the
endpoint outcome (`ok newVersion` or the HTTP error). -/
def rollbackMasterPrompt (doc : MasterPromptDoc) (version : Nat)
    (userId : Str) (now : Nat) : MasterPromptDoc × Except HttpError Nat :=
  match doc.versions.find? (fun v => v.version == version) with
  | Option.none =>
      (doc, Except.error { status_code := 404
                           detail := ("Version ").toList ++ (toString version).toList
                                     ++ (" not found").toList })
  | some target =>
      let newVersion := doc.current_version + 1
      let entry : VersionEntry :=
        { version := newVersion
          content := target.content
          created_at := now
          created_by := userId
          notes := ("Rollback a versión ").toList ++ (toString version).toList }
      let versions := doc.versions ++ [entry]
      ({ doc with
           content := target.content
           current_version := newVersion
           versions := versions
           updated_at := now
           updated_by := some userId },
       Except.ok newVersion)

/-! ## Unified prompt service (`app/services/ai/unified_prompt_service.py`) -/

/-- A configuration document as handled by `UnifiedPromptService`
(a Firestore dict; fields absent in some document kinds are `Option`al). -/
structure ConfigDoc where
  id : Str
  module : Option Str := Option.none
  name : Option Str := Option.none
  description : Option Str := Option.none
  content : Str
  parameters : Option (List (Str × PyVal)) := Option.none
  current_version : Option Nat := Option.none
  is_active : Bool := true
  created_at : Nat := 0
deriving DecidableEq, Repr

/-- The process-wide state seen by `UnifiedPromptService`: the
`ai_studio_config` collection plus the in-process cache and its
timestamp. -/
structure PromptServiceState where
  db : List (Str × ConfigDoc)
  cache : List (Str × ConfigDoc)
  cacheTimestamp : Option Nat
deriving DecidableEq, Repr

/-- Generic Python dict insertion `d[k] = v` on an insertion-ordered
association list. -/
def dictInsertD (l : List (Str × ConfigDoc)) (k : Str) (v : ConfigDoc) :
    List (Str × ConfigDoc) :=
  if l.any (fun kv => kv.1 = k) then
    l.map (fun kv => if kv.1 = k then (kv.1, v) else kv)
  else
    l ++ [(k, v)]

/-- `UnifiedPromptService._cache_ttl_seconds`. -/
def cacheTtlSeconds : Nat := 300

/-- `UnifiedPromptService._get_cached_or_fetch`: return the cached document
while the cache timestamp is younger than the TTL; otherwise fetch from the
collection, seeding it with `defaultData` when the document is absent, and
refresh the cache entry and timestamp. -/
def getCachedOrFetch (st : PromptServiceState) (now : Nat) (docId : Str)
    (defaultData : ConfigDoc) : ConfigDoc × PromptServiceState :=
  let cacheFresh :=
    match st.cacheTimestamp with
    | some ts => decide (now - ts < cacheTtlSeconds)
    | Option.none => false
  let cached := if cacheFresh then st.cache.lookup docId else Option.none
  match cached with
  | some doc => (doc, st)
  | Option.none =>
      match st.db.lookup docId with
      | some doc =>
          (doc, { st with cache := dictInsertD st.cache docId doc
                          cacheTimestamp := some now })
      | Option.none =>
          (defaultData,
           { db := dictInsertD st.db docId defaultData
             cache := dictInsertD st.cache docId defaultData
             cacheTimestamp := some now })

/-- `UnifiedPromptService.get_master_prompt`. -/
def getMasterPromptSvc (st : PromptServiceState) (now : Nat) :
    ConfigDoc × PromptServiceState :=
  getCachedOrFetch st now (("master_prompt").toList)
    { id := ("master_prompt").toList
      content := DEFAULT_MASTER_PROMPT
      current_version := some 1
      is_active := true
      created_at := now }

/-- `UnifiedPromptService.get_structure_template`. -/
def getStructureTemplateSvc (st : PromptServiceState) (now : Nat) :
    ConfigDoc × PromptServiceState :=
  getCachedOrFetch st now (("structure_template").toList)
    { id := ("structure_template").toList
      content := DEFAULT_STRUCTURE_TEMPLATE
      is_active := true
      created_at := now }

/-- The default `extension_<module>` document `get_module_extension` hands
to `_get_cached_or_fetch` as seed data. -/
def mkExtensionDefaultDoc (module : Str) (dext : ExtensionDefault) (now : Nat) :
    ConfigDoc :=
  { id := ("extension_").toList ++ module
    module := some module
    name := some dext.name
    description := some dext.description
    content := dext.content
    parameters := some dext.parameters
    is_active := true
    created_at := now }

/-- `UnifiedPromptService.get_module_extension`: raises
`ValueError("Unknown module: ...")` whenever `module` is not a key of
`DEFAULT_MODULE_EXTENSIONS` (this check runs before any document lookup),
and otherwise reads the `extension_<module>` document through the cache,
seeding it with the hardcoded default when absent. -/
def getModuleExtension (st : PromptServiceState) (now : Nat) (module : Str) :
    Except Str (ConfigDoc × PromptServiceState) :=
  let docId := ("extension_").toList ++ module
  match DEFAULT_MODULE_EXTENSIONS.lookup module with
  | Option.none => Except.error (("Unknown module: ").toList ++ module)
  | some dext =>
      Except.ok (getCachedOrFetch st now docId (mkExtensionDefaultDoc module dext now))

/-- The `GenerationContext` request-scoped value object. -/
structure GenerationContext where
  tema : Str
  nivel : Str := ("basico").toList
  unidad : Option Str := Option.none
  duracion : Option Str := Option.none
  objetivo : Option Str := Option.none
  idioma_base : Str := ("es").toList
  idioma_objetivo : Str := ("pt-BR").toList
  additional_context : Option Str := Option.none
  module_params : List (Str × PyVal) := []
deriving DecidableEq, Repr

/-- Python truthiness of an optional string. -/
def optStrTruthy (o : Option Str) : Bool :=
  match o with
  | some s => !s.isEmpty
  | Option.none => false

/-- The variable mapping built by `assemble_prompt`: the seven fixed
context keys in insertion order, then every `module_params` entry inserted
on top (overriding a fixed key in place when the names collide). -/
def buildVariables (ctx : GenerationContext) : List (Str × PyVal) :=
  let base : List (Str × PyVal) :=
    [((("tema").toList), PyVal.vstr ctx.tema),
     ((("nivel").toList), PyVal.vstr ctx.nivel),
     ((("unidad").toList), PyVal.vstr (pyOr ctx.unidad (("General").toList))),
     ((("duracion").toList), PyVal.vstr (pyOr ctx.duracion (("Variable").toList))),
     ((("objetivo").toList), PyVal.vstr (pyOr ctx.objetivo (("Dominar el tema presentado").toList))),
     ((("idioma_base").toList), PyVal.vstr ctx.idioma_base),
     ((("idioma_objetivo").toList), PyVal.vstr ctx.idioma_objetivo)]
  ctx.module_params.foldl (fun acc kv => dictInsert acc kv.1 kv.2) base

/-- The "generation data" footer appended by `assemble_prompt`: the
`DATOS DE GENERACIÓN` block, the optional `CONTEXTO ADICIONAL` block, and
the closing instruction sentence. -/
def dataSection (ctx : GenerationContext) : Str :=
  (("\n---\n\n## DATOS DE GENERACIÓN\n- Tema: ").toList ++ ctx.tema
    ++ ("\n- Nivel: ").toList ++ ctx.nivel
    ++ ("\n- Unidad: ").toList ++ pyOr ctx.unidad (("N/A").toList)
    ++ ("\n- Duración: ").toList ++ pyOr ctx.duracion (("Variable").toList)
    ++ ("\n- Objetivo: ").toList ++ pyOr ctx.objetivo (("Dominar el tema presentado").toList)
    ++ ("\n").toList)
  ++ (if optStrTruthy ctx.additional_context then
        ("\n## CONTEXTO ADICIONAL\n").toList
          ++ ctx.additional_context.getD [] ++ ("\n").toList
      else [])
  ++ ("\nGenera el contenido completo siguiendo todas las instrucciones anteriores.").toList

/-- The assembly step of `UnifiedPromptService.assemble_prompt` (lines
after the three documents are fetched), as a function of the three fetched
`content` fields: substitute variables in each layer, then join the
non-empty sections and the data footer with blank lines, prefixing the
structure and extension sections with a `---` delimiter line. -/
def assemblePromptPure (masterContent structureContent extensionContent : Str)
    (ctx : GenerationContext) (includeStructure : Bool) : Str :=
  let vars := buildVariables ctx
  let masterC := replaceVariables masterContent vars
  let structureC := replaceVariables structureContent vars
  let extensionC := replaceVariables extensionContent vars
  let parts : List Str :=
    [masterC]
    ++ (if includeStructure && !structureC.isEmpty then
          [("---\n\n").toList ++ structureC] else [])
    ++ [("---\n\n").toList ++ extensionC]
    ++ [dataSection ctx]
  List.intercalate (("\n\n").toList) parts

/-- `UnifiedPromptService.assemble_prompt`: fetch the master prompt, the
structure template (a dummy empty-content document when `includeStructure`
is false) and the module extension, then assemble. -/
def assemblePrompt (st : PromptServiceState) (now : Nat) (module : Str)
    (ctx : GenerationContext) (includeStructure : Bool) :
    Except Str (Str × PromptServiceState) :=
  let (master, st1) := getMasterPromptSvc st now
  let (structDoc, st2) :=
    if includeStructure then getStructureTemplateSvc st1 now
    else ({ id := [], content := [] }, st1)
  match getModuleExtension st2 now module with
  | Except.error e => Except.error e
  | Except.ok (ext, st3) =>
      Except.ok
        (assemblePromptPure master.content structDoc.content ext.content ctx includeStructure,
         st3)

/-! ## Quiz generation (`app/api/v1/endpoints/ai_studio/quizzes.py`) -/

/-- A quiz answer option (processed form). -/
structure QuizOption where
  id : Str
  text : Str
  is_correct : Bool
deriving DecidableEq, Repr

/-- A quiz question (processed form). -/
structure QuizQuestion where
  id : Str
  question : Str
  type : Str
  options : List QuizOption
  explanation : Option Str
  points : Int
  category : Option Str
deriving DecidableEq, Repr

/-- The body of a `POST /generate` quiz request. -/
structure QuizGenerateRequest where
  topic : Str
  num_questions : Nat := 10
  question_types : List Str := [("multiple_choice").toList, ("true_false").toList]
  difficulty : Str := ("intermediate").toList
  language : Str := ("es").toList
  include_explanations : Bool := true
  additional_context : Option Str := Option.none
  lesson_id : Option Str := Option.none
deriving DecidableEq, Repr

/-- The `generated_quizzes` document. -/
structure QuizDoc where
  title : Str
  topic : Str
  difficulty : Str
  status : Str
  questions : List QuizQuestion
  timeLimitMinutes : Nat
  lessonId : Option Str
  createdBy : Str
  createdAt : Nat
  errorMessage : Option Str
  completedAt : Option Nat
deriving DecidableEq, Repr

/-- An option dict as found in the model's parsed JSON answer (every field
may be missing). -/
structure RawOption where
  id : Option Str
  text : Option Str
  is_correct : Option Bool
deriving DecidableEq, Repr

/-- A question dict as found in the model's parsed JSON answer. -/
structure RawQuestion where
  id : Option Str
  question : Option Str
  type : Option Str
  options : List RawOption
  explanation : Option Str
  points : Option Int
  category : Option Str
deriving DecidableEq, Repr

/-- The top-level dict of the model's parsed JSON answer. -/
structure ParsedQuiz where
  title : Option Str
  questions : List RawQuestion
deriving DecidableEq, Repr

/-- Suffix test on character lists. -/
def isSuf (p s : Str) : Bool :=
  isPre p.reverse s.reverse

/-- The code-fence cleanup performed on the model's response before JSON
parsing: strip, then drop a leading ```json or ``` fence and a trailing
``` fence. -/
def stripCodeFences (response : Str) : Str :=
  let t := pyStrip response
  let t := if isPre (("```json").toList) t then t.drop 7 else t
  let t := if isPre (("```").toList) t then t.drop 3 else t
  let t := if isSuf (("```").toList) t then t.take (t.length - 3) else t
  t

/-- Default-filling of one parsed option (`opt.get(...)` with defaults;
the option id defaults to the letter at offset `j` from `a`). -/
def processOption (j : Nat) (o : RawOption) : QuizOption :=
  { id := o.id.getD [Char.ofNat (97 + j)]
    text := o.text.getD []
    is_correct := o.is_correct.getD false }

/-- Default-filling of one parsed question (`q.get(...)` with defaults). -/
def processQuestion (i : Nat) (q : RawQuestion) : QuizQuestion :=
  { id := q.id.getD ((toString (i + 1)).toList)
    question := q.question.getD []
    type := q.type.getD (("multiple_choice").toList)
    options := q.options.enum.map (fun p => processOption p.1 p.2)
    explanation := q.explanation
    points := q.points.getD 1
    category := q.category }

/-- The `QuizResponse` body returned by the endpoint. -/
structure QuizResponseM where
  id : Str
  title : Str
  topic : Str
  status : Str
  questions : List QuizQuestion
  total_questions : Nat
  total_points : Int
  difficulty : Str
  time_limit_minutes : Option Nat
  created_at : Nat
  lesson_id : Option Str
  error_message : Option Str
deriving DecidableEq, Repr

/-- `_quiz_to_response`: project the persisted document into the response
body; `total_points` sums the per-question points. -/
def quizToResponse (quizId : Str) (d : QuizDoc) : QuizResponseM :=
  { id := quizId
    title := d.title
    topic := d.topic
    status := d.status
    questions := d.questions
    total_questions := d.questions.length
    total_points := (d.questions.map (fun q => q.points)).sum
    difficulty := d.difficulty
    time_limit_minutes := some d.timeLimitMinutes
    created_at := d.createdAt
    lesson_id := d.lessonId
    error_message := d.errorMessage }

/-- `generate_quiz`: validate the question count (400 on violation), write
a `generating` placeholder document, call the provider and parse its JSON
(`provider` is the provider call's outcome and `parseJson` stands for
`json.loads`, `Option.none` denoting `JSONDecodeError`); any provider error
or parse failure updates the document to `failed` with the error message
recorded, and the endpoint still answers HTTP 200 with the document's
current state. -/
def generateQuiz (req : QuizGenerateRequest) (userId : Str) (quizId : Str)
    (now : Nat) (provider : Except Str Str)
    (parseJson : Str → Option ParsedQuiz) :
    Except HttpError (Nat × QuizDoc × QuizResponseM) :=
  if req.num_questions < 3 then
    Except.error { status_code := 400, detail := ("Minimum 3 questions required").toList }
  else if req.num_questions > 30 then
    Except.error { status_code := 400, detail := ("Maximum 30 questions allowed").toList }
  else
    let doc0 : QuizDoc :=
      { title := ("Cuestionario: ").toList ++ req.topic.take 50
        topic := req.topic
        difficulty := req.difficulty
        status := ("generating").toList
        questions := []
        timeLimitMinutes := req.num_questions * 2
        lessonId := req.lesson_id
        createdBy := userId
        createdAt := now
        errorMessage := Option.none
        completedAt := Option.none }
    let finalDoc :=
      match provider with
      | Except.error e =>
          { doc0 with status := ("failed").toList, errorMessage := some e }
      | Except.ok response =>
          match parseJson (pyStrip (stripCodeFences response)) with
          | Option.none =>
              { doc0 with status := ("failed").toList
                          errorMessage := some (("Error al procesar la respuesta de IA").toList) }
          | some result =>
              let questions := result.questions.enum.map (fun p => processQuestion p.1 p.2)
              let title := result.title.getD (("Cuestionario: ").toList ++ req.topic.take 50)
              { doc0 with title := title
                          questions := questions
                          status := ("completed").toList
                          completedAt := some now }
    Except.ok (200, finalDoc, quizToResponse quizId finalDoc)

/-! ## Avatar-video status polling (`app/api/v1/endpoints/ai_studio/videos.py`) -/

/-- The dict returned by `heygen.get_video_status`. -/
structure StatusData where
  status : Option Str
  video_url : Option Str
  thumbnail_url : Option Str
  duration : Option Nat
  error : Option Str
deriving DecidableEq, Repr

/-- The `generated_videos` document fields touched by the poll loop. -/
structure VideoDoc where
  status : Str
  videoUrl : Option Str
  thumbnailUrl : Option Str
  duration : Option Nat
  errorMessage : Option Str
  completedAt : Option Nat
  updatedAt : Option Nat
deriving DecidableEq, Repr

/-- The timeout message written when all polling attempts are exhausted. -/
def timeoutMessage : Str :=
  ("Video generation timed out. Please try again.").toList

/-- `max_attempts` of `_poll_heygen_status`. -/
def maxPollAttempts : Nat := 60

/-- The body of `_poll_heygen_status`'s `while attempt < max_attempts`
loop.  `poll i` is the outcome of the `i`-th call to
`heygen.get_video_status` (an exception or a status dict).  The first
`Nat` argument is the remaining number of attempts; the second is the
current attempt index.  Returns the final document, the number of polls
performed, and the list of sleep durations (in seconds) executed between
polls. -/
def pollLoopAux (poll : Nat → Except Str StatusData) (now : Nat) :
    Nat → Nat → VideoDoc → VideoDoc × Nat × List Nat
  | 0, _, doc =>
      ({ doc with status := ("failed").toList
                  errorMessage := some timeoutMessage
                  updatedAt := some now }, 0, [])
  | fuel + 1, attempt, doc =>
      match poll attempt with
      | Except.error _ =>
          let r := pollLoopAux poll now fuel (attempt + 1) doc
          (r.1, r.2.1 + 1, 30 :: r.2.2)
      | Except.ok sd =>
          if sd.status = some (("completed").toList) then
            ({ doc with status := ("completed").toList
                        videoUrl := sd.video_url
                        thumbnailUrl := sd.thumbnail_url
                        duration := sd.duration
                        errorMessage := Option.none
                        completedAt := some now
                        updatedAt := some now }, 1, [])
          else if sd.status = some (("failed").toList) then
            ({ doc with status := ("failed").toList
                        errorMessage := some (sd.error.getD (("Video generation failed").toList))
                        updatedAt := some now }, 1, [])
          else
            let doc' :=
              if sd.status = some (("processing").toList) then
                { doc with status := ("processing").toList, updatedAt := some now }
              else doc
            let r := pollLoopAux poll now fuel (attempt + 1) doc'
            (r.1, r.2.1 + 1, 30 :: r.2.2)

/-- `_poll_heygen_status`: run the poll loop with 60 attempts starting at
attempt 0; when the attempts are exhausted without a terminal provider
status, the document is marked `failed` with the timeout message. -/
def pollHeygenStatus (poll : Nat → Except Str StatusData) (now : Nat)
    (doc : VideoDoc) : VideoDoc × Nat × List Nat :=
  pollLoopAux poll now maxPollAttempts 0 doc

/-! ## Access-code validation (`app/api/v1/endpoints/access_codes.py`) -/

/-- An `access_codes` collection document. -/
structure AccessCodeDoc where
  code : Str
  studentId : Str
  studentName : Str
  studentEmail : Str
  createdAt : Nat
  expiresAt : Option Nat
  used : Bool
  usedAt : Option Nat
  createdBy : Str
deriving DecidableEq, Repr

/-- The stored `role` field, which is legacy-inconsistently either a single
string or a list of strings. -/
inductive RoleField where
  | one : Str → RoleField
  | many : List Str → RoleField
deriving DecidableEq, Repr

/-- A `users` collection document (the fields validation reads). -/
structure UserDoc where
  email : Str
  name : Str
  role : Option RoleField
  isDisabled : Bool
  accessCode : Option Str
  enrolledCourses : List Str
  studentLevel : Option Str
deriving DecidableEq, Repr

/-- A `courses` collection document (the fields validation reads). -/
structure CourseDoc where
  name : Option Str
  title : Option Str
  description : Option Str
  level : Option Str
deriving DecidableEq, Repr

/-- The store state read and written by access-code validation. -/
structure LmsState where
  accessCodes : List (Str × AccessCodeDoc)
  users : List (Str × UserDoc)
  courses : List (Str × CourseDoc)
deriving DecidableEq, Repr

/-- The claims a JWT is created from (`create_access_token(token_data)`);
the issued token is a function of exactly these claims. -/
structure TokenData where
  sub : Str
  email : Str
  role : List Str
deriving DecidableEq, Repr

/-- The `StudentInfo` response part. -/
structure StudentInfo where
  id : Str
  email : Str
  name : Str
  student_level : Option Str
  enrolled_courses : List Str
deriving DecidableEq, Repr

/-- The `CourseInfo` response part. -/
structure CourseInfo where
  id : Str
  name : Str
  description : Option Str
  level : Option Str
deriving DecidableEq, Repr

/-- The `AccessCodeValidateResponse` body. -/
structure ValidateResponse where
  valid : Bool
  message : Str
  access_token : Option TokenData
  expires_in : Option Nat
  student : Option StudentInfo
  courses : List CourseInfo
deriving DecidableEq, Repr

/-- A rejection response: `valid=False`, a message, and no token. -/
def invalidResp (msg : Str) : ValidateResponse :=
  { valid := false, message := msg, access_token := Option.none
    expires_in := Option.none, student := Option.none, courses := [] }

/-- `settings.access_token_expire_minutes` (default 1440). -/
def accessTokenExpireMinutes : Nat := 1440

/-- Role normalisation `role if isinstance(role, list) else [role]` with
default `["student"]` when the field is missing. -/
def normRole (r : Option RoleField) : List Str :=
  match r with
  | Option.none => [("student").toList]
  | some (RoleField.one s) => [s]
  | some (RoleField.many l) => l

/-- Python `d.get("name") or d.get("title", "")`. -/
def nameOrTitle (c : CourseDoc) : Str :=
  match c.name with
  | some s => if s.isEmpty then c.title.getD [] else s
  | Option.none => c.title.getD []

/-- The tail of `validate_access_code` shared by both lookup paths: reject
a disabled account, else collect enrolled course info, mint the JWT claims
and answer `valid=True`. -/
def grantAccess (st : LmsState) (studentId : Str) (u : UserDoc) :
    LmsState × ValidateResponse :=
  if u.isDisabled then
    (st, invalidResp (("Esta cuenta está deshabilitada").toList))
  else
    let courses := u.enrolledCourses.filterMap (fun cid =>
      (st.courses.lookup cid).map (fun cd =>
        ({ id := cid, name := nameOrTitle cd
           description := cd.description, level := cd.level } : CourseInfo)))
    (st,
     { valid := true
       message := ("Código validado exitosamente").toList
       access_token := some { sub := studentId, email := u.email, role := normRole u.role }
       expires_in := some (accessTokenExpireMinutes * 60)
       student := some { id := studentId, email := u.email, name := u.name
                         student_level := u.studentLevel
                         enrolled_courses := u.enrolledCourses }
       courses := courses })

/-- `validate_access_code`: normalise the submitted code (uppercase and
strip), reject short codes, then look the code up in `access_codes`
(first match). A found code is rejected when already used or expired,
otherwise its student is loaded, the code is marked used, and access is
granted.  When no `access_codes` document matches, fall back to a `users`
query on the `accessCode` field; that path performs no used/expiration
check and no write.  Returns the post-state and the response body. -/
def validateAccessCode (st : LmsState) (now : Nat) (requestCode : Str) :
    LmsState × ValidateResponse :=
  let code := pyStrip (requestCode.map Char.toUpper)
  if code.isEmpty || code.length < 4 then
    (st, invalidResp (("Invalid access code format").toList))
  else
    match st.accessCodes.find? (fun kv => kv.2.code == code) with
    | some (docId, cd) =>
        if cd.used then
          (st, invalidResp (("Este código ya fue utilizado").toList))
        else if (match cd.expiresAt with
                 | some e => decide (now > e)
                 | Option.none => false) then
          (st, invalidResp (("Este código ha expirado").toList))
        else
          match st.users.lookup cd.studentId with
          | Option.none =>
              (st, invalidResp (("Estudiante no encontrado").toList))
          | some u =>
              let st' := { st with
                accessCodes := st.accessCodes.map (fun kv =>
                  if kv.1 = docId then
                    (kv.1, { kv.2 with used := true, usedAt := some now })
                  else kv) }
              grantAccess st' cd.studentId u
    | Option.none =>
        match st.users.find? (fun kv =>
          match kv.2.accessCode with
          | some c => c == code
          | Option.none => false) with
        | Option.none =>
            (st, invalidResp (("Código de acceso inválido").toList))
        | some (uid, u) => grantAccess st uid u

/-! ## Template tokens: well-formed templates for the substitution claims

A well-formed template is a concatenation of brace-free literal segments
and `\x7b\x7bname\x7d\x7d` placeholders with brace-free names.  These are
the spec's vocabulary for stating what the substitution engine does; the
engine itself (`replaceVariables`) operates on raw strings. -/

/-- A string without brace characters. -/
def braceFree (s : Str) : Bool :=
  s.all (fun c => !(c == lbrace) && !(c == rbrace))

/-- A template token: a literal segment or a placeholder. -/
inductive Tok where
  | lit : Str → Tok
  | ph : Str → Tok
deriving DecidableEq, Repr

/-- Render a token list back into the template string it stands for. -/
def renderToks : List Tok → Str
  | [] => []
  | Tok.lit s :: rest => s ++ renderToks rest
  | Tok.ph n :: rest => phPat n ++ renderToks rest

/-- Well-formedness of one token: its payload is brace-free. -/
def wfTok : Tok → Bool
  | Tok.lit s => braceFree s
  | Tok.ph n => braceFree n

/-- Well-formedness of a template token list. -/
def wfToks (ts : List Tok) : Bool :=
  ts.all wfTok

/-- Replace every placeholder named `k` by the literal `w`. -/
def substPh (k w : Str) : List Tok → List Tok :=
  List.map (fun t =>
    match t with
    | Tok.lit s => Tok.lit s
    | Tok.ph n => if n = k then Tok.lit w else Tok.ph n)

/-- Simultaneous substitution of a whole variable mapping, the reading the
spec describes: every placeholder whose name is a key becomes the string
form of the value (empty when falsy), every other placeholder stays. -/
def substTok (vars : List (Str × PyVal)) : Tok → Tok
  | Tok.lit s => Tok.lit s
  | Tok.ph n =>
      match vars.lookup n with
      | some v => Tok.lit v.toStrOrEmpty
      | Option.none => Tok.ph n

/-- Simultaneous substitution over a token list. -/
def substToks (vars : List (Str × PyVal)) (ts : List Tok) : List Tok :=
  ts.map (substTok vars)

/-- Well-formedness of a variable mapping for the substitution claims:
keys and substituted values are brace-free. -/
def wfVars (vars : List (Str × PyVal)) : Bool :=
  vars.all (fun kv => braceFree kv.1 && braceFree kv.2.toStrOrEmpty)

/-! ## Concrete fixtures used by witnesses and counterexamples -/

/-- The generation context used by the C3 counterexample: topic `saludos`,
all other fields left at their defaults, no module parameters. -/
def c3Ctx : GenerationContext :=
  { tema := ("saludos").toList }

/-- Concrete master-prompt document for the C1 witness: one history entry,
version 1. -/
def c1WitnessDoc : MasterPromptDoc :=
  { content := ("hola").toList
    current_version := 1
    versions := [{ version := 1
                   content := ("hola").toList
                   created_at := 0
                   created_by := ("system").toList
                   notes := [] }]
    is_active := true
    created_at := 0
    updated_at := 0
    updated_by := Option.none }

/-- Concrete master-prompt document for the C1 counterexample: a full
history of 10 entries (versions 1..10). -/
def c1FullDoc : MasterPromptDoc :=
  { content := []
    current_version := 10
    versions := (List.range 10).map (fun i =>
      { version := i + 1
        content := []
        created_at := 0
        created_by := []
        notes := [] })
    is_active := true
    created_at := 0
    updated_at := 0
    updated_by := Option.none }

/-- Concrete master-prompt document for the C5 witness: two history
entries. -/
def c5WitnessDoc : MasterPromptDoc :=
  { content := ("v2").toList
    current_version := 2
    versions := [{ version := 1
                   content := ("v1").toList
                   created_at := 0
                   created_by := ("system").toList
                   notes := [] },
                 { version := 2
                   content := ("v2").toList
                   created_at := 0
                   created_by := ("system").toList
                   notes := [] }]
    is_active := true
    created_at := 0
    updated_at := 0
    updated_by := Option.none }

/-- The eight values of the `AIModule` enumeration
(`app/models/domain/ai/prompt_config.py`). -/
def AIModuleValues : List Str :=
  [("audio").toList, ("presentation").toList, ("mindmap").toList,
   ("podcast").toList, ("video").toList, ("flashcard").toList,
   ("quiz").toList, ("lesson").toList]

/-- The generation context used by the C7 witness and counterexample. -/
def c7Ctx : GenerationContext :=
  { tema := ("saludos").toList }

/-- A poll outcome is terminal when the provider reports `completed` or
`failed`. -/
def pollTerminal (r : Except Str StatusData) : Bool :=
  match r with
  | Except.ok sd =>
      decide (sd.status = some (("completed").toList))
        || decide (sd.status = some (("failed").toList))
  | Except.error _ => false

/-- The poll outcome sequence used by the C8 witness: the provider reports
`completed` on every call. -/
def c8Poll : Nat → Except Str StatusData :=
  fun _ => Except.ok
    { status := some (("completed").toList)
      video_url := some (("http://v").toList)
      thumbnail_url := Option.none
      duration := Option.none
      error := Option.none }

/-- The starting document used by the C8 witness. -/
def c8Doc : VideoDoc :=
  { status := ("generating").toList
    videoUrl := Option.none
    thumbnailUrl := Option.none
    duration := Option.none
    errorMessage := Option.none
    completedAt := Option.none
    updatedAt := Option.none }

/-- The store used by the C9 witness: one already-used code `ABCDEF`. -/
def c9State : LmsState :=
  { accessCodes := [((("doc1").toList),
      { code := ("ABCDEF").toList
        studentId := ("s1").toList
        studentName := ("Ana").toList
        studentEmail := ("a@x").toList
        createdAt := 0
        expiresAt := Option.none
        used := true
        usedAt := Option.none
        createdBy := ("admin").toList })]
    users := []
    courses := [] }

/-- The store state after `n` repeated validation requests with the same
code. -/
def repeatValidateState (st : LmsState) (now : Nat) (requestCode : Str) :
    Nat → LmsState
  | 0 => st
  | n + 1 => (validateAccessCode (repeatValidateState st now requestCode n) now requestCode).1

/-- The store used by the C10 witness: no `access_codes` documents, one
enabled student whose `accessCode` field is `QRCODE`. -/
def c10State : LmsState :=
  { accessCodes := []
    users := [((("s1").toList),
      { email := ("ana@x").toList
        name := ("Ana").toList
        role := some (RoleField.one (("student").toList))
        isDisabled := false
        accessCode := some (("QRCODE").toList)
        enrolledCourses := []
        studentLevel := Option.none })]
    courses := [] }

/-! ### Lemmas about the replacement scan -/

theorem isPre_append_self (p t : Str) : isPre p (p ++ t) = true := by
  induction p with
  | nil => rfl
  | cons a xs ih => simp [isPre, ih]

theorem replGoAux_fuel (old new : Str) :
    ∀ (f₁ f₂ : Nat) (s : Str), s.length ≤ f₁ → s.length ≤ f₂ →
      replGoAux old new f₁ s = replGoAux old new f₂ s := by
  intro f₁
  induction f₁ with
  | zero =>
      intro f₂ s h₁ _
      have hs : s = [] := List.eq_nil_of_length_eq_zero (Nat.le_zero.mp h₁)
      subst hs
      cases f₂ <;> rfl
  | succ g ih =>
      intro f₂ s h₁ h₂
      cases s with
      | nil => cases f₂ <;> rfl
      | cons c rest =>
          cases f₂ with
          | zero => simp at h₂
          | succ h =>
              simp only [List.length_cons] at h₁ h₂
              simp only [replGoAux]
              by_cases hp : isPre old (c :: rest) = true
              · rw [if_pos hp, if_pos hp]
                congr 1
                apply ih
                · have := List.length_drop (old.length - 1) rest
                  omega
                · have := List.length_drop (old.length - 1) rest
                  omega
              · rw [if_neg hp, if_neg hp]
                congr 1
                apply ih <;> omega

theorem replGo_cons_nomatch (old new : Str) (c : Char) (t : Str)
    (h : isPre old (c :: t) = false) :
    replGo old new (c :: t) = c :: replGo old new t := by
  simp only [replGo, List.length_cons, replGoAux, h]
  simp

theorem replGo_append_match (o₁ : Char) (o' new t : Str) :
    replGo (o₁ :: o') new ((o₁ :: o') ++ t) = new ++ replGo (o₁ :: o') new t := by
  have hlen : ((o₁ :: o') ++ t).length = (o'.length + t.length) + 1 := by
    simp [Nat.add_comm, Nat.add_left_comm]
  simp only [replGo, hlen]
  have hcons : (o₁ :: o') ++ t = o₁ :: (o' ++ t) := rfl
  rw [hcons]
  simp only [replGoAux, isPre_append_self]
  rw [if_pos]
  · congr 1
    have hdrop : (o' ++ t).drop ((o₁ :: o').length - 1) = t := by
      simp [List.drop_left]
    rw [hdrop]
    exact replGoAux_fuel _ _ _ _ _ (by omega) (Nat.le_refl _)
  · have := isPre_append_self (o₁ :: o') t
    exact this


theorem braceFree_cons (c : Char) (s : Str) :
    braceFree (c :: s) = ((!(c == lbrace) && !(c == rbrace)) && braceFree s) := by
  simp [braceFree, List.all_cons]

theorem isPre_phPat_cons_ne (k : Str) (c : Char) (w : Str) (hc : c ≠ lbrace) :
    isPre (phPat k) (c :: w) = false := by
  simp [phPat, isPre]
  intro h
  exact absurd h.symm hc

theorem isPre_keys_ne (k : Str) :
    ∀ (n t : Str), braceFree k = true → braceFree n = true → k ≠ n →
      isPre (k ++ [rbrace, rbrace]) (n ++ rbrace :: rbrace :: t) = false := by
  induction k with
  | nil =>
      intro n t _ hn hne
      cases n with
      | nil => exact absurd rfl hne
      | cons b n' =>
          rw [braceFree_cons] at hn
          have hb : (b == rbrace) = false := by
            cases hbe : (b == rbrace) <;> simp_all
          simp [isPre]
          intro h
          exact absurd (beq_iff_eq.mpr h.symm) (by simp [hb])
  | cons a k' ih =>
      intro n t hk hn hkn
      rw [braceFree_cons] at hk
      cases n with
      | nil =>
          have ha : (a == rbrace) = false := by
            cases hae : (a == rbrace) <;> simp_all
          simp [isPre]
          intro h
          exact absurd (beq_iff_eq.mpr h) (by simp [ha])
      | cons b n' =>
          by_cases hab : a = b
          · subst hab
            have hne' : k' ≠ n' := by
              intro h
              exact hkn (by rw [h])
            rw [braceFree_cons] at hn
            simp only [List.cons_append, isPre]
            have hrec := ih n' t (by simp_all) (by simp_all) hne'
            simp [hrec]
          · simp [List.cons_append, isPre, hab]

theorem isPre_phPat_ne (k n t : Str) (hk : braceFree k = true)
    (hn : braceFree n = true) (hne : k ≠ n) :
    isPre (phPat k) (lbrace :: lbrace :: (n ++ rbrace :: rbrace :: t)) = false := by
  have h := isPre_keys_ne k n t hk hn hne
  simp only [phPat, isPre, List.append_assoc] at h ⊢
  simp [h]

theorem replGo_append_braceFree (k new : Str) :
    ∀ (s t : Str), braceFree s = true →
      replGo (phPat k) new (s ++ t) = s ++ replGo (phPat k) new t := by
  intro s
  induction s with
  | nil => intro t _; rfl
  | cons c s' ih =>
      intro t hs
      rw [braceFree_cons] at hs
      have hc : c ≠ lbrace := by
        intro h
        subst h
        simp at hs
      rw [List.cons_append,
          replGo_cons_nomatch _ _ _ _ (isPre_phPat_cons_ne k c _ hc),
          ih t (by simp_all), List.cons_append]

theorem replGo_phPat_self (k new t : Str) :
    replGo (phPat k) new (phPat k ++ t) = new ++ replGo (phPat k) new t := by
  have h := replGo_append_match lbrace (lbrace :: k ++ [rbrace, rbrace]) new t
  simpa [phPat] using h

theorem isPre_phPat_second (k n : Str) (t : Str) (hn : braceFree n = true) :
    isPre (phPat k) (lbrace :: (n ++ rbrace :: rbrace :: t)) = false := by
  cases n with
  | nil =>
      simp [phPat, isPre]
      intro h
      exact absurd h (by decide)
  | cons b n' =>
      rw [braceFree_cons] at hn
      have hb : b ≠ lbrace := by
        intro h
        subst h
        simp at hn
      simp [phPat, isPre]
      intro h
      exact absurd h.symm hb

theorem replGo_phPat_other (k n new t : Str) (hk : braceFree k = true)
    (hn : braceFree n = true) (hne : k ≠ n) :
    replGo (phPat k) new (phPat n ++ t) = phPat n ++ replGo (phPat k) new t := by
  have e : phPat n ++ t = lbrace :: lbrace :: (n ++ rbrace :: rbrace :: t) := by
    simp [phPat]
  rw [e,
      replGo_cons_nomatch _ _ _ _ (isPre_phPat_ne k n t hk hn hne),
      replGo_cons_nomatch _ _ _ _ (isPre_phPat_second k n t hn),
      replGo_append_braceFree k new n _ hn,
      replGo_cons_nomatch _ _ _ _ (isPre_phPat_cons_ne k rbrace _ (by decide)),
      replGo_cons_nomatch _ _ _ _ (isPre_phPat_cons_ne k rbrace _ (by decide))]
  simp [phPat]

theorem phPat_not_isEmpty (k : Str) : (phPat k).isEmpty = false := by
  simp [phPat, List.isEmpty]

theorem pyReplace_renderToks (k w : Str) (hk : braceFree k = true) :
    ∀ (ts : List Tok), wfToks ts = true →
      pyReplace (renderToks ts) (phPat k) w = renderToks (substPh k w ts) := by
  have main : ∀ (ts : List Tok), wfToks ts = true →
      replGo (phPat k) w (renderToks ts) = renderToks (substPh k w ts) := by
    intro ts
    induction ts with
    | nil => intro _; rfl
    | cons t rest ih =>
        intro hts
        simp only [wfToks, List.all_cons, Bool.and_eq_true] at hts
        have ihr := ih (by simp [wfToks, hts.2])
        cases t with
        | lit s =>
            simp only [renderToks, substPh, List.map_cons] at ihr ⊢
            rw [replGo_append_braceFree k w s _ hts.1, ihr]
        | ph n =>
            by_cases hnk : n = k
            · subst hnk
              simp only [renderToks, substPh, List.map_cons, if_pos rfl] at ihr ⊢
              rw [replGo_phPat_self, ihr]
            · simp only [renderToks, substPh, List.map_cons, if_neg hnk] at ihr ⊢
              rw [replGo_phPat_other k n w _ hk hts.1 (fun h => hnk h.symm), ihr]
  intro ts hts
  simp only [pyReplace, phPat_not_isEmpty]
  simp [main ts hts]

theorem wfToks_substPh (k w : Str) (hw : braceFree w = true)
    (ts : List Tok) (hts : wfToks ts = true) :
    wfToks (substPh k w ts) = true := by
  simp only [substPh, wfToks, List.all_map]
  simp only [wfToks, List.all_eq_true] at hts ⊢
  intro t ht
  have h := hts t ht
  cases t with
  | lit s => simpa [Function.comp, wfTok] using h
  | ph n =>
      by_cases hnk : n = k
      · simp [Function.comp, hnk, wfTok, hw]
      · simpa [Function.comp, hnk, wfTok] using h

theorem substToks_cons_eq (k : Str) (v : PyVal) (rest : List (Str × PyVal)) :
    ∀ (ts : List Tok),
      substToks ((k, v) :: rest) ts = substToks rest (substPh k v.toStrOrEmpty ts) := by
  intro ts
  induction ts with
  | nil => rfl
  | cons t ts' ih =>
      cases t with
      | lit s =>
          simp only [substToks, substPh, List.map_cons] at ih ⊢
          simp [substTok, ih]
      | ph n =>
          by_cases hnk : n = k
          · subst hnk
            simp only [substToks, substPh, List.map_cons, if_pos rfl] at ih ⊢
            simp [substTok, List.lookup, ih]
          · simp only [substToks, substPh, List.map_cons, if_neg hnk] at ih ⊢
            have hbeq : (n == k) = false := by simp [hnk]
            simp [substTok, List.lookup, hbeq, ih]

theorem substToks_nil (ts : List Tok) : substToks [] ts = ts := by
  induction ts with
  | nil => rfl
  | cons t ts' ih =>
      cases t <;> simp [substToks, substTok, List.lookup] at ih ⊢ <;> simp [ih]

/-- Helper for the substitution claims: on a well-formed template and a
variable mapping with brace-free keys and brace-free substituted values,
the engine's sequential scan computes exactly the simultaneous
placeholder substitution. -/
theorem replaceVariables_renderToks :
    ∀ (vars : List (Str × PyVal)) (ts : List Tok), wfVars vars = true →
      wfToks ts = true →
      replaceVariables (renderToks ts) vars = renderToks (substToks vars ts) := by
  intro vars
  induction vars with
  | nil =>
      intro ts _ _
      simp [replaceVariables, substToks_nil]
  | cons kv rest ih =>
      intro ts hv hts
      obtain ⟨k, v⟩ := kv
      simp only [wfVars, List.all_cons, Bool.and_eq_true] at hv
      have step : replaceVariables (renderToks ts) ((k, v) :: rest)
          = replaceVariables (pyReplace (renderToks ts) (phPat k) v.toStrOrEmpty) rest := by
        simp [replaceVariables, List.foldl_cons]
      rw [step, pyReplace_renderToks k v.toStrOrEmpty hv.1.1 ts hts,
          ih (substPh k v.toStrOrEmpty ts) (by simp [wfVars, hv.2])
            (wfToks_substPh k v.toStrOrEmpty hv.1.2 ts hts),
          substToks_cons_eq]

theorem renderToks_append (a b : List Tok) :
    renderToks (a ++ b) = renderToks a ++ renderToks b := by
  induction a with
  | nil => rfl
  | cons t a' ih => cases t <;> simp [renderToks, ih]

theorem wfToks_append (a b : List Tok) (ha : wfToks a = true) (hb : wfToks b = true) :
    wfToks (a ++ b) = true := by
  simp only [wfToks, List.all_append, Bool.and_eq_true]
  exact ⟨ha, hb⟩

/-- C4 (amended): on a well-formed template (brace-free literal segments
and placeholders with brace-free names) and a mapping whose keys and
substituted values are brace-free, the engine replaces every placeholder
whose name is a key of the mapping with the string form of the key's value
(empty string when the value is falsy) and leaves every placeholder whose
name is not a key verbatim — i.e. it computes the simultaneous
substitution `substToks`.  Without the brace-freedom proviso the
per-occurrence reading fails because the replacements are applied
sequentially, one key at a time (see the counterexample). -/
theorem c4_replace_variables (ts : List Tok) (vars : List (Str × PyVal))
    (hts : wfToks ts = true) (hv : wfVars vars = true) :
    replaceVariables (renderToks ts) vars = renderToks (substToks vars ts) :=
  replaceVariables_renderToks vars ts hv hts

/-- Witness for C4: a concrete template `hola \x7b\x7btema\x7d\x7d` with a
one-key mapping. -/
theorem c4_replace_variables_witness :
    replaceVariables
        (renderToks [Tok.lit (("hola ").toList), Tok.ph (("tema").toList)])
        [((("tema").toList), PyVal.vstr (("saludos").toList))]
      = renderToks
          (substToks [((("tema").toList), PyVal.vstr (("saludos").toList))]
            [Tok.lit (("hola ").toList), Tok.ph (("tema").toList)]) :=
  c4_replace_variables
    [Tok.lit (("hola ").toList), Tok.ph (("tema").toList)]
    [((("tema").toList), PyVal.vstr (("saludos").toList))]
    (by decide) (by decide)

/-- Counterexample for C4 as stated: when a value's string form itself
contains a placeholder pattern, the sequential engine substitutes through
it, so the occurrence of `\x7b\x7bb\x7d\x7d` is not replaced by the string
form of `b`'s value (`\x7b\x7ba\x7d\x7d`) but ends up as `X`. -/
theorem c4_counterexample :
    replaceVariables (renderToks [Tok.ph (("b").toList)])
        [((("b").toList), PyVal.vstr (phPat (("a").toList))),
         ((("a").toList), PyVal.vstr (("X").toList))]
      = ("X").toList
    ∧ renderToks
        (substToks
          [((("b").toList), PyVal.vstr (phPat (("a").toList))),
           ((("a").toList), PyVal.vstr (("X").toList))]
          [Tok.ph (("b").toList)])
      = phPat (("a").toList)
    ∧ (("X").toList : Str) ≠ phPat (("a").toList) := by
  refine ⟨by decide, by decide, by decide⟩

/-- C3 (amended): a placeholder whose name IS a key of the variable
mapping with a falsy value is replaced by the empty string — the rendered
output is the surrounding material with nothing in the placeholder's
place; substitution is a total function (it never throws).  Placeholders
whose name is absent from the mapping are, however, left verbatim (see
the counterexample), not replaced by the empty string. -/
theorem c3_falsy_placeholder_empty (pre post : List Tok) (k : Str)
    (vars : List (Str × PyVal)) (v : PyVal)
    (hpre : wfToks pre = true) (hpost : wfToks post = true)
    (hk : braceFree k = true) (hv : wfVars vars = true)
    (hl : vars.lookup k = some v) (hfalsy : v.truthy = false) :
    replaceVariables (renderToks (pre ++ Tok.ph k :: post)) vars
      = renderToks (substToks vars pre) ++ renderToks (substToks vars post) := by
  have hwf : wfToks (pre ++ Tok.ph k :: post) = true := by
    apply wfToks_append _ _ hpre
    simp [wfToks, List.all_cons, wfTok, hk]
    simpa [wfToks] using hpost
  rw [replaceVariables_renderToks vars _ hv hwf]
  have : substToks vars (pre ++ Tok.ph k :: post)
      = substToks vars pre ++ Tok.lit [] :: substToks vars post := by
    simp only [substToks, List.map_append, List.map_cons]
    congr 1
    simp [substTok, hl, PyVal.toStrOrEmpty, hfalsy]
  rw [this, renderToks_append]
  simp [renderToks]

/-- Witness for C3: the placeholder `\x7b\x7bextra\x7d\x7d` between two
literals, with `extra` mapped to `None`, vanishes from the output. -/
theorem c3_falsy_placeholder_empty_witness :
    replaceVariables
        (renderToks [Tok.lit (("a-").toList), Tok.ph (("extra").toList), Tok.lit (("-b").toList)])
        [((("extra").toList), PyVal.vnone)]
      = renderToks (substToks [((("extra").toList), PyVal.vnone)] [Tok.lit (("a-").toList)])
        ++ renderToks (substToks [((("extra").toList), PyVal.vnone)] [Tok.lit (("-b").toList)]) :=
  c3_falsy_placeholder_empty [Tok.lit (("a-").toList)] [Tok.lit (("-b").toList)]
    (("extra").toList) [((("extra").toList), PyVal.vnone)] PyVal.vnone
    (by decide) (by decide) (by decide) (by decide) (by decide) (by decide)

/-- Counterexample for C3 as stated: the stored template consisting of the
single placeholder `\x7b\x7bcustom\x7d\x7d`, substituted for a generation
context that lacks the key `custom`, keeps the literal placeholder text in
the output (the variable mapping built by `assemble_prompt` has no
`custom` key, so no replacement touches it). -/
theorem c3_counterexample :
    (buildVariables c3Ctx).lookup (("custom").toList) = Option.none
    ∧ replaceVariables (phPat (("custom").toList)) (buildVariables c3Ctx)
        = phPat (("custom").toList)
    ∧ phPat (("custom").toList) ≠ ([] : Str) := by
  refine ⟨by decide, by decide, by decide⟩

/-- C1 (amended): after `update_master_prompt`, `current_version` grows by
exactly 1, equals the version number of the last history entry, and the
history is truncated to its 10 most recent entries, evicting the oldest
first.  After a successful `rollback_master_prompt`, `current_version`
also grows by exactly 1 and equals the last entry's version number, but
the history is appended WITHOUT truncation, so it can exceed 10 entries
(see the counterexample). -/
theorem c1_version_invariants (doc : MasterPromptDoc) (req : MasterPromptUpdateReq)
    (userId : Str) (now : Nat) (version : Nat) :
    ((updateMasterPrompt doc req userId now).current_version = doc.current_version + 1
      ∧ ((updateMasterPrompt doc req userId now).versions.getLast?).map (fun e => e.version)
          = some (updateMasterPrompt doc req userId now).current_version
      ∧ (updateMasterPrompt doc req userId now).versions.length ≤ 10
      ∧ ∃ entry : VersionEntry,
          entry.version = doc.current_version + 1
          ∧ entry.content = req.content
          ∧ (updateMasterPrompt doc req userId now).versions
              = (doc.versions ++ [entry]).drop ((doc.versions.length + 1) - 10))
    ∧ (∀ d' newV, rollbackMasterPrompt doc version userId now = (d', Except.ok newV) →
        d'.current_version = doc.current_version + 1
        ∧ (d'.versions.getLast?).map (fun e => e.version) = some d'.current_version
        ∧ d'.versions.length = doc.versions.length + 1) := by
  constructor
  · set entry : VersionEntry :=
      { version := doc.current_version + 1
        content := req.content
        created_at := now
        created_by := userId
        notes := pyOr req.notes
          ((("Versión ").toList ++ (toString (doc.current_version + 1)).toList)) } with hentry
    have hu : (updateMasterPrompt doc req userId now).versions
        = if (doc.versions ++ [entry]).length > 10 then
            (doc.versions ++ [entry]).drop ((doc.versions ++ [entry]).length - 10)
          else doc.versions ++ [entry] := by
      simp [updateMasterPrompt, hentry]
    have hcv : (updateMasterPrompt doc req userId now).current_version
        = doc.current_version + 1 := by
      simp [updateMasterPrompt]
    refine ⟨hcv, ?_, ?_, ?_⟩
    · rw [hcv, hu]
      by_cases h : (doc.versions ++ [entry]).length > 10
      · rw [if_pos h]
        have hle : (doc.versions ++ [entry]).length - 10 ≤ doc.versions.length := by
          simp only [List.length_append, List.length_cons, List.length_nil] at h ⊢
          omega
        rw [List.drop_append_of_le_length hle, List.getLast?_concat]
        simp [hentry]
      · rw [if_neg h, List.getLast?_concat]
        simp [hentry]
    · rw [hu]
      by_cases h : (doc.versions ++ [entry]).length > 10
      · rw [if_pos h]
        simp
        omega
      · rw [if_neg h]
        simp at h ⊢
        omega
    · refine ⟨entry, by simp [hentry], by simp [hentry], ?_⟩
      rw [hu]
      by_cases h : (doc.versions ++ [entry]).length > 10
      · rw [if_pos h]
        simp
      · rw [if_neg h]
        have : doc.versions.length + 1 - 10 = 0 := by
          simp at h
          omega
        simp [this]
  · intro d' newV h
    cases hf : doc.versions.find? (fun v => v.version == version) with
    | none =>
        simp [rollbackMasterPrompt, hf] at h
    | some target =>
        simp only [rollbackMasterPrompt, hf] at h
        obtain ⟨hd, _⟩ := Prod.mk.injEq .. ▸ h
        refine ?_
        have hd' : d' = { doc with
            content := target.content
            current_version := doc.current_version + 1
            versions := doc.versions ++
              [{ version := doc.current_version + 1
                 content := target.content
                 created_at := now
                 created_by := userId
                 notes := ("Rollback a versión ").toList ++ (toString version).toList }]
            updated_at := now
            updated_by := some userId } := by
          exact hd.symm
        subst hd'
        refine ⟨rfl, ?_, by simp⟩
        simp [List.getLast?_concat]

/-- Witness for C1: both branches of `c1_version_invariants` instantiated
at a concrete document (update, and a rollback to version 1 that
succeeds). -/
theorem c1_version_invariants_witness :
    (updateMasterPrompt c1WitnessDoc ⟨("x").toList, Option.none⟩ ([]) 0).versions.length ≤ 10
    ∧ (rollbackMasterPrompt c1WitnessDoc 1 ([]) 0).1.current_version
        = c1WitnessDoc.current_version + 1
    ∧ (rollbackMasterPrompt c1WitnessDoc 1 ([]) 0).1.versions.length
        = c1WitnessDoc.versions.length + 1 := by
  have h := c1_version_invariants c1WitnessDoc ⟨("x").toList, Option.none⟩ ([]) 0 1
  have hr := h.2 (rollbackMasterPrompt c1WitnessDoc 1 ([]) 0).1 2 rfl
  exact ⟨h.1.2.2.1, hr.1, hr.2.2⟩

/-- Counterexample for C1 as stated: starting from a document whose
history already holds 10 entries, a successful rollback to version 1
leaves 11 entries in `versions` — the rollback path appends without
evicting, so the 10-entry cap does not hold for every update of the
Master Prompt. -/
theorem c1_counterexample :
    c1FullDoc.versions.length = 10
    ∧ (rollbackMasterPrompt c1FullDoc 1 ([]) 0).2 = Except.ok 11
    ∧ (rollbackMasterPrompt c1FullDoc 1 ([]) 0).1.versions.length = 11
    ∧ ¬((rollbackMasterPrompt c1FullDoc 1 ([]) 0).1.versions.length ≤ 10) := by
  refine ⟨by decide, rfl, by decide, by decide⟩

/-- C5: when an entry with version number N exists in the history, the
rollback endpoint succeeds, the resulting active content equals that
entry's stored content, a fresh entry with a strictly higher version
number is appended, and every existing entry is preserved in place (the
old history is a prefix of the new one); when no such entry exists, the
endpoint answers 404 and the document is unchanged.  (Freshness of the
new version number uses the reachable-state invariant that no history
entry exceeds `current_version`.) -/
theorem c5_rollback_correct (doc : MasterPromptDoc) (version : Nat)
    (userId : Str) (now : Nat) :
    (∀ target, doc.versions.find? (fun v => v.version == version) = some target →
      (∀ e ∈ doc.versions, e.version ≤ doc.current_version) →
      ∃ d' newV, rollbackMasterPrompt doc version userId now = (d', Except.ok newV)
        ∧ d'.content = target.content
        ∧ d'.versions.length = doc.versions.length + 1
        ∧ d'.versions.take doc.versions.length = doc.versions
        ∧ ∃ entry, d'.versions = doc.versions ++ [entry]
            ∧ entry.version = doc.current_version + 1
            ∧ entry.content = target.content
            ∧ ∀ e ∈ doc.versions, e.version < entry.version)
    ∧ (doc.versions.find? (fun v => v.version == version) = Option.none →
        rollbackMasterPrompt doc version userId now
          = (doc, Except.error
              { status_code := 404
                detail := ("Version ").toList ++ (toString version).toList
                          ++ (" not found").toList })) := by
  constructor
  · intro target hf hbound
    have heq : rollbackMasterPrompt doc version userId now
        = ({ doc with
               content := target.content
               current_version := doc.current_version + 1
               versions := doc.versions ++
                 [{ version := doc.current_version + 1
                    content := target.content
                    created_at := now
                    created_by := userId
                    notes := ("Rollback a versión ").toList ++ (toString version).toList }]
               updated_at := now
               updated_by := some userId },
           Except.ok (doc.current_version + 1)) := by
      simp [rollbackMasterPrompt, hf]
    refine ⟨_, _, heq, rfl, by simp, by simp [List.take_left], ?_⟩
    refine ⟨_, rfl, rfl, rfl, ?_⟩
    intro e he
    exact Nat.lt_succ_of_le (hbound e he)
  · intro hf
    simp [rollbackMasterPrompt, hf]

/-- Witness for C5: rolling `c5WitnessDoc` back to version 1 restores the
content `v1` and appends one entry; rolling back to the absent version 7
fails with 404 and leaves the document unchanged. -/
theorem c5_rollback_correct_witness :
    (∃ d' newV, rollbackMasterPrompt c5WitnessDoc 1 ([]) 0 = (d', Except.ok newV)
      ∧ d'.content = ("v1").toList
      ∧ d'.versions.length = c5WitnessDoc.versions.length + 1
      ∧ d'.versions.take c5WitnessDoc.versions.length = c5WitnessDoc.versions
      ∧ ∃ entry, d'.versions = c5WitnessDoc.versions ++ [entry]
          ∧ entry.version = c5WitnessDoc.current_version + 1
          ∧ entry.content = ("v1").toList
          ∧ ∀ e ∈ c5WitnessDoc.versions, e.version < entry.version)
    ∧ rollbackMasterPrompt c5WitnessDoc 7 ([]) 0
        = (c5WitnessDoc, Except.error
            { status_code := 404
              detail := ("Version ").toList ++ (toString 7).toList ++ (" not found").toList }) := by
  constructor
  · have h := (c5_rollback_correct c5WitnessDoc 1 ([]) 0).1
      { version := 1
        content := ("v1").toList
        created_at := 0
        created_by := ("system").toList
        notes := [] }
      (by decide) (by decide)
    exact h
  · exact (c5_rollback_correct c5WitnessDoc 7 ([]) 0).2 (by decide)

/-- C2 (amended): `get_module_extension` succeeds exactly for the seven
identifiers that are keys of `DEFAULT_MODULE_EXTENSIONS` (audio,
presentation, mindmap, podcast, video, flashcard, quiz); for those it
returns the stored document, creating it from the hardcoded default on
first access when absent; for every other identifier — including the
`lesson` member of the eight-value `AIModule` enumeration, which has no
default entry — it fails with an unknown-module error before any document
lookup. -/
theorem c2_module_extension (st : PromptServiceState) (now : Nat) (module : Str) :
    (DEFAULT_MODULE_EXTENSIONS.lookup module = Option.none →
      getModuleExtension st now module
        = Except.error (("Unknown module: ").toList ++ module))
    ∧ (∀ dext, DEFAULT_MODULE_EXTENSIONS.lookup module = some dext →
        (∃ doc st', getModuleExtension st now module = Except.ok (doc, st'))
        ∧ (st.cacheTimestamp = Option.none →
           st.db.lookup (("extension_").toList ++ module) = Option.none →
           getModuleExtension st now module = Except.ok
             (mkExtensionDefaultDoc module dext now,
              { db := dictInsertD st.db (("extension_").toList ++ module)
                        (mkExtensionDefaultDoc module dext now)
                cache := dictInsertD st.cache (("extension_").toList ++ module)
                          (mkExtensionDefaultDoc module dext now)
                cacheTimestamp := some now }))) := by
  constructor
  · intro h
    simp [getModuleExtension, h]
  · intro dext h
    constructor
    · exact ⟨(getCachedOrFetch st now (("extension_").toList ++ module)
                (mkExtensionDefaultDoc module dext now)).1,
             (getCachedOrFetch st now (("extension_").toList ++ module)
                (mkExtensionDefaultDoc module dext now)).2,
             by simp [getModuleExtension, h]⟩
    · intro hts hdb
      have hc : getCachedOrFetch st now (("extension_").toList ++ module)
          (mkExtensionDefaultDoc module dext now)
          = (mkExtensionDefaultDoc module dext now,
             { db := dictInsertD st.db (("extension_").toList ++ module)
                       (mkExtensionDefaultDoc module dext now)
               cache := dictInsertD st.cache (("extension_").toList ++ module)
                         (mkExtensionDefaultDoc module dext now)
               cacheTimestamp := some now }) := by
        have hdb2 : List.lookup
            ('e' :: 'x' :: 't' :: 'e' :: 'n' :: 's' :: 'i' :: 'o' :: 'n' :: '_' :: module)
            st.db = Option.none := hdb
        simp [getCachedOrFetch, hts, hdb2]
      simp only [getModuleExtension, h]
      exact congrArg Except.ok hc

/-- Witness for C2: on a fresh empty state, `quiz` succeeds by creating
the default extension document, and the creation writes it to the
collection. -/
theorem c2_module_extension_witness :
    (∃ doc st', getModuleExtension ⟨[], [], Option.none⟩ 0 (("quiz").toList)
      = Except.ok (doc, st')) := by
  have h := c2_module_extension ⟨[], [], Option.none⟩ 0 (("quiz").toList)
  exact (h.2 _ rfl).1

/-- Counterexample for C2 as stated: `lesson` belongs to the eight-value
`AIModule` enumeration, yet `get_module_extension` fails for it with the
unknown-module error instead of creating a default document. -/
theorem c2_counterexample :
    ("lesson").toList ∈ AIModuleValues
    ∧ DEFAULT_MODULE_EXTENSIONS.lookup (("lesson").toList) = Option.none
    ∧ getModuleExtension ⟨[], [], Option.none⟩ 0 (("lesson").toList)
        = Except.error (("Unknown module: lesson").toList) := by
  refine ⟨by decide, rfl, rfl⟩

/-- C6: for a validated quiz request (3 ≤ num_questions ≤ 30), when the
provider call fails or its answer does not parse as JSON, the persisted
quiz document ends in status `failed` with the error message recorded, and
the endpoint still answers HTTP 200 whose body carries the failed state
(status and error message) instead of a 500. -/
theorem c6_generate_quiz_failures (req : QuizGenerateRequest) (userId quizId : Str)
    (now : Nat) (provider : Except Str Str) (parseJson : Str → Option ParsedQuiz)
    (h3 : 3 ≤ req.num_questions) (h30 : req.num_questions ≤ 30) :
    (∀ e, provider = Except.error e →
      ∃ doc resp, generateQuiz req userId quizId now provider parseJson
          = Except.ok (200, doc, resp)
        ∧ doc.status = ("failed").toList
        ∧ doc.errorMessage = some e
        ∧ resp.status = ("failed").toList
        ∧ resp.error_message = some e)
    ∧ (∀ r, provider = Except.ok r →
        parseJson (pyStrip (stripCodeFences r)) = Option.none →
        ∃ doc resp, generateQuiz req userId quizId now provider parseJson
            = Except.ok (200, doc, resp)
          ∧ doc.status = ("failed").toList
          ∧ doc.errorMessage = some (("Error al procesar la respuesta de IA").toList)
          ∧ resp.status = ("failed").toList
          ∧ resp.error_message = some (("Error al procesar la respuesta de IA").toList)) := by
  have hlt : ¬(req.num_questions < 3) := by omega
  have hgt : ¬(req.num_questions > 30) := by omega
  constructor
  · intro e he
    subst he
    have heq : generateQuiz req userId quizId now (Except.error e) parseJson
        = Except.ok (200,
            { title := ("Cuestionario: ").toList ++ req.topic.take 50
              topic := req.topic
              difficulty := req.difficulty
              status := ("failed").toList
              questions := []
              timeLimitMinutes := req.num_questions * 2
              lessonId := req.lesson_id
              createdBy := userId
              createdAt := now
              errorMessage := some e
              completedAt := Option.none },
            quizToResponse quizId
              { title := ("Cuestionario: ").toList ++ req.topic.take 50
                topic := req.topic
                difficulty := req.difficulty
                status := ("failed").toList
                questions := []
                timeLimitMinutes := req.num_questions * 2
                lessonId := req.lesson_id
                createdBy := userId
                createdAt := now
                errorMessage := some e
                completedAt := Option.none }) := by
      simp [generateQuiz, hlt, hgt]
    exact ⟨_, _, heq, rfl, rfl, rfl, rfl⟩
  · intro r hr hp
    subst hr
    have heq : generateQuiz req userId quizId now (Except.ok r) parseJson
        = Except.ok (200,
            { title := ("Cuestionario: ").toList ++ req.topic.take 50
              topic := req.topic
              difficulty := req.difficulty
              status := ("failed").toList
              questions := []
              timeLimitMinutes := req.num_questions * 2
              lessonId := req.lesson_id
              createdBy := userId
              createdAt := now
              errorMessage := some (("Error al procesar la respuesta de IA").toList)
              completedAt := Option.none },
            quizToResponse quizId
              { title := ("Cuestionario: ").toList ++ req.topic.take 50
                topic := req.topic
                difficulty := req.difficulty
                status := ("failed").toList
                questions := []
                timeLimitMinutes := req.num_questions * 2
                lessonId := req.lesson_id
                createdBy := userId
                createdAt := now
                errorMessage := some (("Error al procesar la respuesta de IA").toList)
                completedAt := Option.none }) := by
      simp [generateQuiz, hlt, hgt, hp]
    exact ⟨_, _, heq, rfl, rfl, rfl, rfl⟩

/-- Witness for C6: a concrete request whose provider call raises `boom`;
the endpoint answers 200 with a failed document carrying `boom`. -/
theorem c6_generate_quiz_failures_witness :
    ∃ doc resp,
      generateQuiz { topic := ("saludos").toList } ([]) ([]) 0
          (Except.error (("boom").toList)) (fun _ => Option.none)
        = Except.ok (200, doc, resp)
      ∧ doc.status = ("failed").toList
      ∧ doc.errorMessage = some (("boom").toList)
      ∧ resp.status = ("failed").toList
      ∧ resp.error_message = some (("boom").toList) := by
  have h := c6_generate_quiz_failures { topic := ("saludos").toList } ([]) ([]) 0
    (Except.error (("boom").toList)) (fun _ => Option.none) (by decide) (by decide)
  exact h.1 (("boom").toList) rfl

theorem intercalate_four (sep a b c d : Str) :
    List.intercalate sep [a, b, c, d] = a ++ sep ++ b ++ sep ++ c ++ sep ++ d := by
  simp [List.intercalate, List.intersperse, List.append_assoc]

/-- C7 (amended): with `include_structure` true and a substituted
structure template that is non-empty, `assemble_prompt` returns exactly
the substituted master prompt, the substituted structure template and the
substituted module extension in that order, each later section preceded by
a blank-line-wrapped `---` delimiter, followed by the generation-data
footer (topic/level/unit/duration/objective, the optional additional
context block, and the closing instruction).  The function is pure, so the
output is deterministic for fixed templates and context.  When the
substituted structure template is empty, the section AND its delimiter are
omitted (see the counterexample), which is the one departure from the
claim as stated. -/
theorem c7_assemble_order (masterContent structureContent extensionContent : Str)
    (ctx : GenerationContext)
    (hs : (replaceVariables structureContent (buildVariables ctx)).isEmpty = false) :
    assemblePromptPure masterContent structureContent extensionContent ctx true
      = replaceVariables masterContent (buildVariables ctx)
        ++ ("\n\n---\n\n").toList
        ++ replaceVariables structureContent (buildVariables ctx)
        ++ ("\n\n---\n\n").toList
        ++ replaceVariables extensionContent (buildVariables ctx)
        ++ ("\n\n").toList
        ++ dataSection ctx := by
  simp only [assemblePromptPure, hs, Bool.not_false, Bool.and_self, if_pos,
    Bool.true_and, List.cons_append, List.nil_append]
  rw [intercalate_four]
  simp [List.append_assoc]

/-- Witness for C7: concrete one-character templates with a non-empty
structure layer. -/
theorem c7_assemble_order_witness :
    assemblePromptPure (("M").toList) (("S").toList) (("E").toList) c7Ctx true
      = replaceVariables (("M").toList) (buildVariables c7Ctx)
        ++ ("\n\n---\n\n").toList
        ++ replaceVariables (("S").toList) (buildVariables c7Ctx)
        ++ ("\n\n---\n\n").toList
        ++ replaceVariables (("E").toList) (buildVariables c7Ctx)
        ++ ("\n\n").toList
        ++ dataSection c7Ctx :=
  c7_assemble_order (("M").toList) (("S").toList) (("E").toList) c7Ctx (by decide)

/-- Counterexample for C7 as stated: with `include_structure = true` but an
empty substituted structure template, the structure section is dropped
together with its `---` delimiter, so the output does not contain the
delimiter the claim's fixed concatenation would put around the (empty)
structure section. -/
theorem c7_counterexample :
    (replaceVariables ([]) (buildVariables c7Ctx)).isEmpty = true
    ∧ assemblePromptPure (("M").toList) ([]) (("E").toList) c7Ctx true
        = ("M").toList ++ ("\n\n---\n\n").toList ++ ("E").toList
          ++ ("\n\n").toList ++ dataSection c7Ctx
    ∧ assemblePromptPure (("M").toList) ([]) (("E").toList) c7Ctx true
        ≠ ("M").toList ++ ("\n\n---\n\n").toList
          ++ replaceVariables ([]) (buildVariables c7Ctx)
          ++ ("\n\n---\n\n").toList ++ ("E").toList
          ++ ("\n\n").toList ++ dataSection c7Ctx := by
  refine ⟨by decide, by decide, by decide⟩


theorem pollLoopAux_bound (poll : Nat → Except Str StatusData) (now : Nat) :
    ∀ (fuel attempt : Nat) (doc : VideoDoc),
      (pollLoopAux poll now fuel attempt doc).2.1 ≤ fuel
      ∧ ∀ x ∈ (pollLoopAux poll now fuel attempt doc).2.2, x = 30 := by
  intro fuel
  induction fuel with
  | zero =>
      intro attempt doc
      simp [pollLoopAux]
  | succ f ih =>
      intro attempt doc
      cases hp : poll attempt with
      | error e =>
          have h := ih (attempt + 1) doc
          simp only [pollLoopAux, hp]
          constructor
          · simpa using Nat.succ_le_succ h.1
          · intro x hx
            simp at hx
            rcases hx with hx | hx
            · exact hx
            · exact h.2 x hx
      | ok sd =>
          simp only [pollLoopAux, hp]
          by_cases h1 : sd.status = some (("completed").toList)
          · rw [if_pos h1]
            simp
          · rw [if_neg h1]
            by_cases h2 : sd.status = some (("failed").toList)
            · rw [if_pos h2]
              simp
            · rw [if_neg h2]
              have h := ih (attempt + 1)
                (if sd.status = some (("processing").toList) then
                  { doc with status := ("processing").toList, updatedAt := some now }
                 else doc)
              constructor
              · simpa using Nat.succ_le_succ h.1
              · intro x hx
                simp at hx
                rcases hx with hx | hx
                · exact hx
                · exact h.2 x hx

theorem pollLoopAux_timeout (poll : Nat → Except Str StatusData) (now : Nat) :
    ∀ (fuel attempt : Nat) (doc : VideoDoc),
      (∀ i, attempt ≤ i → i < attempt + fuel → pollTerminal (poll i) = false) →
      (pollLoopAux poll now fuel attempt doc).1.status = ("failed").toList
      ∧ (pollLoopAux poll now fuel attempt doc).1.errorMessage = some timeoutMessage
      ∧ (pollLoopAux poll now fuel attempt doc).2.1 = fuel := by
  intro fuel
  induction fuel with
  | zero =>
      intro attempt doc _
      simp [pollLoopAux]
  | succ f ih =>
      intro attempt doc h
      have hterm : pollTerminal (poll attempt) = false :=
        h attempt (Nat.le_refl _) (by omega)
      cases hp : poll attempt with
      | error e =>
          have hrec := ih (attempt + 1) doc
            (fun i hi1 hi2 => h i (by omega) (by omega))
          simp only [pollLoopAux, hp]
          exact ⟨hrec.1, hrec.2.1, by simp [hrec.2.2]⟩
      | ok sd =>
          rw [hp] at hterm
          simp only [pollTerminal, Bool.or_eq_false_iff, decide_eq_false_iff_not] at hterm
          simp only [pollLoopAux, hp, if_neg hterm.1, if_neg hterm.2]
          have hrec := ih (attempt + 1)
            (if sd.status = some (("processing").toList) then
              { doc with status := ("processing").toList, updatedAt := some now }
             else doc)
            (fun i hi1 hi2 => h i (by omega) (by omega))
          refine ⟨by simpa using hrec.1, by simpa using hrec.2.1, by simpa using hrec.2.2⟩

theorem pollLoopAux_early (poll : Nat → Except Str StatusData) (now : Nat) :
    ∀ (fuel : Nat) (attempt : Nat) (doc : VideoDoc) (j : Nat), j < fuel →
      pollTerminal (poll (attempt + j)) = true →
      (∀ i, i < j → pollTerminal (poll (attempt + i)) = false) →
      (pollLoopAux poll now fuel attempt doc).2.1 = j + 1
      ∧ ∀ sd, poll (attempt + j) = Except.ok sd →
          ((sd.status = some (("completed").toList) →
             (pollLoopAux poll now fuel attempt doc).1.status = ("completed").toList)
           ∧ (sd.status = some (("failed").toList) →
             (pollLoopAux poll now fuel attempt doc).1.status = ("failed").toList
             ∧ (pollLoopAux poll now fuel attempt doc).1.errorMessage
                 = some (sd.error.getD (("Video generation failed").toList)))) := by
  intro fuel
  induction fuel with
  | zero =>
      intro attempt doc j hj
      exact absurd hj (by omega)
  | succ f ih =>
      intro attempt doc j hj hterm hmin
      cases j with
      | zero =>
          simp only [Nat.add_zero] at hterm
          cases hp : poll attempt with
          | error e =>
              rw [hp] at hterm
              simp [pollTerminal] at hterm
          | ok sd =>
              rw [hp] at hterm
              simp only [pollTerminal, Bool.or_eq_true, decide_eq_true_eq] at hterm
              constructor
              · rcases hterm with h1 | h2
                · simp [pollLoopAux, hp, h1]
                · by_cases h1 : sd.status = some (("completed").toList)
                  · simp [pollLoopAux, hp, h1]
                  · simp [pollLoopAux, hp, h1, h2]
              · intro sd' hsd'
                rw [Nat.add_zero, hp] at hsd'
                have hsd : sd' = sd := by
                  injection hsd' with h
                  exact h.symm
                subst hsd
                constructor
                · intro h1
                  simp [pollLoopAux, hp, h1]
                · intro h2
                  by_cases h1 : sd'.status = some (("completed").toList)
                  · rw [h1] at h2
                    have : (("completed").toList : Str) = ("failed").toList := by
                      injection h2
                    exact absurd this (by decide)
                  · constructor
                    · simp [pollLoopAux, hp, h1, h2]
                    · simp [pollLoopAux, hp, h1, h2]
      | succ j' =>
          have hnt : pollTerminal (poll attempt) = false := by
            have := hmin 0 (by omega)
            simpa using this
          have hterm' : pollTerminal (poll ((attempt + 1) + j')) = true := by
            have : (attempt + 1) + j' = attempt + (j' + 1) := by omega
            rw [this]
            exact hterm
          have hmin' : ∀ i, i < j' → pollTerminal (poll ((attempt + 1) + i)) = false := by
            intro i hi
            have : (attempt + 1) + i = attempt + (i + 1) := by omega
            rw [this]
            exact hmin (i + 1) (by omega)
          cases hp : poll attempt with
          | error e =>
              have hrec := ih (attempt + 1) doc j' (by omega) hterm' hmin'
              constructor
              · simp only [pollLoopAux, hp]
                simpa using hrec.1
              · intro sd' hsd'
                have hsd2 : poll ((attempt + 1) + j') = Except.ok sd' := by
                  have : (attempt + 1) + j' = attempt + (j' + 1) := by omega
                  rw [this]
                  exact hsd'
                have h2 := hrec.2 sd' hsd2
                simp only [pollLoopAux, hp]
                exact ⟨fun h => by simpa using h2.1 h,
                       fun h => ⟨by simpa using (h2.2 h).1, by simpa using (h2.2 h).2⟩⟩
          | ok sd =>
              rw [hp] at hnt
              simp only [pollTerminal, Bool.or_eq_false_iff, decide_eq_false_iff_not] at hnt
              have hrec := ih (attempt + 1)
                (if sd.status = some (("processing").toList) then
                  { doc with status := ("processing").toList, updatedAt := some now }
                 else doc) j' (by omega) hterm' hmin'
              constructor
              · simp only [pollLoopAux, hp, if_neg hnt.1, if_neg hnt.2]
                simpa using hrec.1
              · intro sd' hsd'
                have hsd2 : poll ((attempt + 1) + j') = Except.ok sd' := by
                  have : (attempt + 1) + j' = attempt + (j' + 1) := by omega
                  rw [this]
                  exact hsd'
                have h2 := hrec.2 sd' hsd2
                simp only [pollLoopAux, hp, if_neg hnt.1, if_neg hnt.2]
                exact ⟨fun h => by simpa using h2.1 h,
                       fun h => ⟨by simpa using (h2.2 h).1, by simpa using (h2.2 h).2⟩⟩

/-- C8: `_poll_heygen_status` performs at most 60 polling attempts, every
sleep between consecutive polls is exactly 30 seconds, it exits right
after the first poll whose provider status is terminal (`completed` or
`failed`) and writes that terminal status to the document, and when all 60
attempts pass without a terminal status it marks the document `failed`
with the timeout message. -/
theorem c8_poll_heygen (poll : Nat → Except Str StatusData) (now : Nat)
    (doc : VideoDoc) :
    (pollHeygenStatus poll now doc).2.1 ≤ 60
    ∧ (∀ x ∈ (pollHeygenStatus poll now doc).2.2, x = 30)
    ∧ ((∀ i, i < 60 → pollTerminal (poll i) = false) →
        (pollHeygenStatus poll now doc).1.status = ("failed").toList
        ∧ (pollHeygenStatus poll now doc).1.errorMessage = some timeoutMessage
        ∧ (pollHeygenStatus poll now doc).2.1 = 60)
    ∧ (∀ j, j < 60 → pollTerminal (poll j) = true →
        (∀ i, i < j → pollTerminal (poll i) = false) →
        (pollHeygenStatus poll now doc).2.1 = j + 1
        ∧ ∀ sd, poll j = Except.ok sd →
            ((sd.status = some (("completed").toList) →
               (pollHeygenStatus poll now doc).1.status = ("completed").toList)
             ∧ (sd.status = some (("failed").toList) →
               (pollHeygenStatus poll now doc).1.status = ("failed").toList
               ∧ (pollHeygenStatus poll now doc).1.errorMessage
                   = some (sd.error.getD (("Video generation failed").toList))))) := by
  refine ⟨(pollLoopAux_bound poll now 60 0 doc).1,
          (pollLoopAux_bound poll now 60 0 doc).2, ?_, ?_⟩
  · intro h
    exact pollLoopAux_timeout poll now 60 0 doc (fun i _ hi2 => h i (by omega))
  · intro j hj hterm hmin
    have h := pollLoopAux_early poll now 60 0 doc j hj
      (by simpa using hterm) (fun i hi => by simpa using hmin i hi)
    exact ⟨h.1, fun sd hsd => h.2 sd (by simpa using hsd)⟩

/-- Witness for C8: with a provider that reports `completed` on the first
poll, the loop performs exactly one poll and writes status `completed`. -/
theorem c8_poll_heygen_witness :
    (pollHeygenStatus c8Poll 0 c8Doc).2.1 = 1
    ∧ (pollHeygenStatus c8Poll 0 c8Doc).1.status = ("completed").toList := by
  have h := (c8_poll_heygen c8Poll 0 c8Doc).2.2.2 0 (by omega) (by decide)
    (fun i hi => absurd hi (by omega))
  exact ⟨h.1, (h.2 _ rfl).1 (by decide)⟩

/-- C9: a validation request whose (normalised) code is found in the
`access_codes` collection with `used = true` is rejected with
`valid = false` and the message `Este código ya fue utilizado`, no JWT is
issued, and the store — in particular the stored code document — is left
unchanged.  (The stored codes the system generates are 6 characters long,
so the 4-character minimum of the format pre-check is met.) -/
theorem c9_used_code_rejected (st : LmsState) (now : Nat) (requestCode : Str)
    (docId : Str) (cd : AccessCodeDoc)
    (hlen : 4 ≤ (pyStrip (requestCode.map Char.toUpper)).length)
    (hfind : st.accessCodes.find?
        (fun kv => kv.2.code == pyStrip (requestCode.map Char.toUpper))
        = some (docId, cd))
    (hused : cd.used = true) :
    validateAccessCode st now requestCode
      = (st, invalidResp (("Este código ya fue utilizado").toList))
    ∧ (validateAccessCode st now requestCode).2.valid = false
    ∧ (validateAccessCode st now requestCode).2.access_token = Option.none
    ∧ (validateAccessCode st now requestCode).1 = st := by
  have hne : (pyStrip (requestCode.map Char.toUpper)).isEmpty = false := by
    cases he : (pyStrip (requestCode.map Char.toUpper)).isEmpty
    · rfl
    · rw [List.isEmpty_iff] at he
      rw [he] at hlen
      simp at hlen
  have hlt : ¬((pyStrip (requestCode.map Char.toUpper)).length < 4) := by omega
  have heq : validateAccessCode st now requestCode
      = (st, invalidResp (("Este código ya fue utilizado").toList)) := by
    simp [validateAccessCode, hne, hlt, hfind, hused]
  refine ⟨heq, ?_, ?_, ?_⟩ <;> rw [heq] <;> rfl

/-- Witness for C9: submitting ` abcdef ` (lower case, padded) against
`c9State` rejects with the used-code message, no token, unchanged store. -/
theorem c9_used_code_rejected_witness :
    validateAccessCode c9State 5 ((" abcdef ").toList)
      = (c9State, invalidResp (("Este código ya fue utilizado").toList))
    ∧ (validateAccessCode c9State 5 ((" abcdef ").toList)).2.access_token
      = Option.none := by
  have h := c9_used_code_rejected c9State 5 ((" abcdef ").toList)
    (("doc1").toList)
    { code := ("ABCDEF").toList
      studentId := ("s1").toList
      studentName := ("Ana").toList
      studentEmail := ("a@x").toList
      createdAt := 0
      expiresAt := Option.none
      used := true
      usedAt := Option.none
      createdBy := ("admin").toList }
    (by decide) (by decide) rfl
  exact ⟨h.1, h.2.2.1⟩

/-- C10: when the (normalised) code matches no `access_codes` document but
equals some user's stored `accessCode` field and that account is not
disabled, validation succeeds and issues a JWT whose claims are built from
that user, the store is not modified (in particular the code is not marked
used and no used/expiration rejection can fire on this path), and the same
code therefore keeps validating successfully for arbitrarily many repeated
logins. -/
theorem c10_fallback_code_reusable (st : LmsState) (now : Nat) (requestCode : Str)
    (uid : Str) (u : UserDoc)
    (hlen : 4 ≤ (pyStrip (requestCode.map Char.toUpper)).length)
    (hfind : st.accessCodes.find?
        (fun kv => kv.2.code == pyStrip (requestCode.map Char.toUpper))
        = Option.none)
    (huser : st.users.find? (fun kv =>
        match kv.2.accessCode with
        | some c => c == pyStrip (requestCode.map Char.toUpper)
        | Option.none => false) = some (uid, u))
    (hdis : u.isDisabled = false) :
    (validateAccessCode st now requestCode).1 = st
    ∧ (validateAccessCode st now requestCode).2.valid = true
    ∧ (validateAccessCode st now requestCode).2.access_token
        = some { sub := uid, email := u.email, role := normRole u.role }
    ∧ (∀ n : Nat, repeatValidateState st now requestCode n = st)
    ∧ (∀ n : Nat,
        (validateAccessCode (repeatValidateState st now requestCode n) now
          requestCode).2.valid = true) := by
  have hne : (pyStrip (requestCode.map Char.toUpper)).isEmpty = false := by
    cases he : (pyStrip (requestCode.map Char.toUpper)).isEmpty
    · rfl
    · rw [List.isEmpty_iff] at he
      rw [he] at hlen
      simp at hlen
  have hlt : ¬((pyStrip (requestCode.map Char.toUpper)).length < 4) := by omega
  have heq : validateAccessCode st now requestCode = grantAccess st uid u := by
    simp [validateAccessCode, hne, hlt, hfind, huser]
  have hgrant : grantAccess st uid u
      = (st,
         { valid := true
           message := ("Código validado exitosamente").toList
           access_token := some { sub := uid, email := u.email, role := normRole u.role }
           expires_in := some (accessTokenExpireMinutes * 60)
           student := some { id := uid, email := u.email, name := u.name
                             student_level := u.studentLevel
                             enrolled_courses := u.enrolledCourses }
           courses := u.enrolledCourses.filterMap (fun cid =>
             (st.courses.lookup cid).map (fun c =>
               ({ id := cid, name := nameOrTitle c
                  description := c.description, level := c.level } : CourseInfo))) }) := by
    simp [grantAccess, hdis]
  have hfix : ∀ n, repeatValidateState st now requestCode n = st := by
    intro n
    induction n with
    | zero => rfl
    | succ m ihm =>
        simp only [repeatValidateState, ihm, heq, hgrant]
  refine ⟨by rw [heq, hgrant], by rw [heq, hgrant], by rw [heq, hgrant], hfix, ?_⟩
  intro n
  rw [hfix n, heq, hgrant]

/-- Witness for C10: the code `qrcode` validates against `c10State` via
the user fallback, issues a token, leaves the store unchanged, and still
validates after 3 repeated logins. -/
theorem c10_fallback_code_reusable_witness :
    (validateAccessCode c10State 0 (("qrcode").toList)).1 = c10State
    ∧ (validateAccessCode c10State 0 (("qrcode").toList)).2.valid = true
    ∧ (validateAccessCode (repeatValidateState c10State 0 (("qrcode").toList) 3) 0
        (("qrcode").toList)).2.valid = true := by
  have h := c10_fallback_code_reusable c10State 0 (("qrcode").toList)
    (("s1").toList)
    { email := ("ana@x").toList
      name := ("Ana").toList
      role := some (RoleField.one (("student").toList))
      isDisabled := false
      accessCode := some (("QRCODE").toList)
      enrolledCourses := []
      studentLevel := Option.none }
    (by decide) (by decide) (by decide) rfl
  exact ⟨h.1, h.2.1, h.2.2.2.2 3⟩
